import Mathlib

/-!
Verification of the AgIsoStack-rs object-pool codec model.

This file gives a shallow embedding of the repository's object-pool data
model (`src/object_pool/mod.rs`) and of the NAME enumerations
(`src/network_management/name/industry_group.rs`,
`src/network_management/name/device_class.rs`), together with a model of
the Reader/Writer byte codec described by the specification, and proves
the specification's claims about them.

Machine integers are embedded as `Nat`/`Int`; a byte is `Fin 256`.
Fallible Rust code is embedded as `Option`/`Except`-returning functions;
a Rust `panic!`/`unreachable!` is embedded as `Option.none`.
-/

namespace AgIso

/-- A byte: the embedding of Rust `u8` wherever raw buffer bytes are meant. -/
abbrev Byte := Fin 256

/-- Little-endian value of a byte list (the embedding of
`uN::from_le_bytes`). -/
def leVal : List Byte → Nat
  | [] => 0
  | b :: bs => b.val + 256 * leVal bs

/-- Little-endian byte encoding of a value at a fixed width (the embedding
of `uN::to_le_bytes`). -/
def leBytes : Nat → Nat → List Byte
  | 0, _ => []
  | n + 1, v => ⟨v % 256, Nat.mod_lt _ (by omega)⟩ :: leBytes n (v / 256)

theorem leVal_lt : ∀ bs : List Byte, leVal bs < 256 ^ bs.length := by
  intro bs
  induction bs with
  | nil => simp [leVal]
  | cons b t ih =>
    have hb := b.isLt
    simp only [leVal, List.length_cons, pow_succ]
    omega

theorem leBytes_leVal : ∀ bs : List Byte, leBytes bs.length (leVal bs) = bs := by
  intro bs
  induction bs with
  | nil => rfl
  | cons b t ih =>
    have hb := b.isLt
    simp only [List.length_cons, leBytes, leVal]
    have h1 : (b.val + 256 * leVal t) % 256 = b.val := by omega
    have h2 : (b.val + 256 * leVal t) / 256 = leVal t := by omega
    rw [h2, ih]
    exact congrArg (· :: t) (Fin.ext h1)

/-- Take exactly `n` bytes off the front of a buffer, or fail. -/
def takeBytes : Nat → List Byte → Option (List Byte × List Byte)
  | 0, bs => some ([], bs)
  | _ + 1, [] => none
  | n + 1, b :: bs =>
    match takeBytes n bs with
    | none => none
    | some (xs, rest) => some (b :: xs, rest)

theorem takeBytes_spec : ∀ (n : Nat) (bs xs rest : List Byte),
    takeBytes n bs = some (xs, rest) → xs.length = n ∧ xs ++ rest = bs := by
  intro n
  induction n with
  | zero =>
    intro bs xs rest h
    simp only [takeBytes, Option.some.injEq, Prod.mk.injEq] at h
    obtain ⟨h1, h2⟩ := h
    subst h1; subst h2; simp
  | succ m ih =>
    intro bs xs rest h
    cases bs with
    | nil => simp [takeBytes] at h
    | cons b t =>
      simp only [takeBytes] at h
      cases htb : takeBytes m t with
      | none => rw [htb] at h; simp at h
      | some p =>
        obtain ⟨xs1, rest1⟩ := p
        rw [htb] at h
        simp only [Option.some.injEq, Prod.mk.injEq] at h
        obtain ⟨h1, h2⟩ := h
        obtain ⟨hl, ha⟩ := ih t xs1 rest1 htb
        subst h1; subst h2
        constructor
        · simp [hl]
        · simp [ha]

/-- Read an `n`-byte little-endian unsigned integer off the front of a
buffer (the Reader's primitive integer read). -/
def readNum (n : Nat) (bs : List Byte) : Option (Nat × List Byte) :=
  match takeBytes n bs with
  | none => none
  | some (xs, rest) => some (leVal xs, rest)

theorem readNum_spec (n : Nat) (bs : List Byte) (v : Nat) (rest : List Byte)
    (h : readNum n bs = some (v, rest)) :
    leBytes n v ++ rest = bs ∧ v < 256 ^ n := by
  unfold readNum at h
  cases htb : takeBytes n bs with
  | none => rw [htb] at h; simp at h
  | some p =>
    obtain ⟨xs, rest1⟩ := p
    rw [htb] at h
    simp only [Option.some.injEq, Prod.mk.injEq] at h
    obtain ⟨h1, h2⟩ := h
    obtain ⟨hl, ha⟩ := takeBytes_spec n bs xs rest1 htb
    subst h1; subst h2
    constructor
    · rw [← hl, leBytes_leVal, ha]
    · rw [← hl]; exact leVal_lt xs

/-- Parse failures of the codec, from `object_pool/mod.rs`. -/
inductive ParseError
  | DataEmpty
  | UnknownObjectType
deriving DecidableEq

/-- The 49 object kinds, from the `ObjectType` enum in
`object_pool/mod.rs` (declaration order, discriminants 0–48). -/
inductive ObjectType
  | WorkingSet
  | DataMask
  | AlarmMask
  | Container
  | SoftKeyMask
  | Key
  | Button
  | InputBoolean
  | InputString
  | InputNumber
  | InputList
  | OutputString
  | OutputNumber
  | OutputLine
  | OutputRectangle
  | OutputEllipse
  | OutputPolygon
  | OutputMeter
  | OutputLinearBarGraph
  | OutputArchedBarGraph
  | PictureGraphic
  | NumberVariable
  | StringVariable
  | FontAttributes
  | LineAttributes
  | FillAttributes
  | InputAttributes
  | ObjectPointer
  | Macro
  | AuxiliaryFunctionType1
  | AuxiliaryInputType1
  | AuxiliaryFunctionType2
  | AuxiliaryInputType2
  | AuxiliaryControlDesignatorType2
  | WindowMask
  | KeyGroup
  | GraphicsContext
  | OutputList
  | ExtendedInputAttributes
  | ColourMap
  | ObjectLabelReferenceList
  | ExternalObjectDefinition
  | ExternalReferenceName
  | ExternalObjectPointer
  | Animation
  | ColourPalette
  | GraphicData
  | WorkingSetSpecialControls
  | ScalesGraphic
deriving DecidableEq

/-- The embedding of `impl TryFrom<u8> for ObjectType` from
`object_pool/mod.rs`: tags 0–48 map to the kinds in declaration order,
anything else is `UnknownObjectType`. -/
def ObjectType.tryFrom (val : Nat) : Except ParseError ObjectType :=
  match val with
  | 0 => .ok .WorkingSet
  | 1 => .ok .DataMask
  | 2 => .ok .AlarmMask
  | 3 => .ok .Container
  | 4 => .ok .SoftKeyMask
  | 5 => .ok .Key
  | 6 => .ok .Button
  | 7 => .ok .InputBoolean
  | 8 => .ok .InputString
  | 9 => .ok .InputNumber
  | 10 => .ok .InputList
  | 11 => .ok .OutputString
  | 12 => .ok .OutputNumber
  | 13 => .ok .OutputLine
  | 14 => .ok .OutputRectangle
  | 15 => .ok .OutputEllipse
  | 16 => .ok .OutputPolygon
  | 17 => .ok .OutputMeter
  | 18 => .ok .OutputLinearBarGraph
  | 19 => .ok .OutputArchedBarGraph
  | 20 => .ok .PictureGraphic
  | 21 => .ok .NumberVariable
  | 22 => .ok .StringVariable
  | 23 => .ok .FontAttributes
  | 24 => .ok .LineAttributes
  | 25 => .ok .FillAttributes
  | 26 => .ok .InputAttributes
  | 27 => .ok .ObjectPointer
  | 28 => .ok .Macro
  | 29 => .ok .AuxiliaryFunctionType1
  | 30 => .ok .AuxiliaryInputType1
  | 31 => .ok .AuxiliaryFunctionType2
  | 32 => .ok .AuxiliaryInputType2
  | 33 => .ok .AuxiliaryControlDesignatorType2
  | 34 => .ok .WindowMask
  | 35 => .ok .KeyGroup
  | 36 => .ok .GraphicsContext
  | 37 => .ok .OutputList
  | 38 => .ok .ExtendedInputAttributes
  | 39 => .ok .ColourMap
  | 40 => .ok .ObjectLabelReferenceList
  | 41 => .ok .ExternalObjectDefinition
  | 42 => .ok .ExternalReferenceName
  | 43 => .ok .ExternalObjectPointer
  | 44 => .ok .Animation
  | 45 => .ok .ColourPalette
  | 46 => .ok .GraphicData
  | 47 => .ok .WorkingSetSpecialControls
  | 48 => .ok .ScalesGraphic
  | _ => .error .UnknownObjectType

/-- The embedding of `impl From<ObjectType> for u8` from
`object_pool/mod.rs`. -/
def ObjectType.toU8 : ObjectType → Nat
  | .WorkingSet => 0
  | .DataMask => 1
  | .AlarmMask => 2
  | .Container => 3
  | .SoftKeyMask => 4
  | .Key => 5
  | .Button => 6
  | .InputBoolean => 7
  | .InputString => 8
  | .InputNumber => 9
  | .InputList => 10
  | .OutputString => 11
  | .OutputNumber => 12
  | .OutputLine => 13
  | .OutputRectangle => 14
  | .OutputEllipse => 15
  | .OutputPolygon => 16
  | .OutputMeter => 17
  | .OutputLinearBarGraph => 18
  | .OutputArchedBarGraph => 19
  | .PictureGraphic => 20
  | .NumberVariable => 21
  | .StringVariable => 22
  | .FontAttributes => 23
  | .LineAttributes => 24
  | .FillAttributes => 25
  | .InputAttributes => 26
  | .ObjectPointer => 27
  | .Macro => 28
  | .AuxiliaryFunctionType1 => 29
  | .AuxiliaryInputType1 => 30
  | .AuxiliaryFunctionType2 => 31
  | .AuxiliaryInputType2 => 32
  | .AuxiliaryControlDesignatorType2 => 33
  | .WindowMask => 34
  | .KeyGroup => 35
  | .GraphicsContext => 36
  | .OutputList => 37
  | .ExtendedInputAttributes => 38
  | .ColourMap => 39
  | .ObjectLabelReferenceList => 40
  | .ExternalObjectDefinition => 41
  | .ExternalReferenceName => 42
  | .ExternalObjectPointer => 43
  | .Animation => 44
  | .ColourPalette => 45
  | .GraphicData => 46
  | .WorkingSetSpecialControls => 47
  | .ScalesGraphic => 48

/-- Helper: whether an `Except` result is a success. -/
def exceptIsOk : Except ParseError ObjectType → Bool
  | .ok _ => true
  | .error _ => false

theorem exceptIsOk_iff (e : Except ParseError ObjectType) :
    exceptIsOk e = true ↔ ∃ t, e = .ok t := by
  cases e with
  | ok t => simp [exceptIsOk]
  | error pe => simp [exceptIsOk]

/-- Helper: whether an `Except` result is the `UnknownObjectType` error. -/
def isUnknownTagErr : Except ParseError ObjectType → Bool
  | .error .UnknownObjectType => true
  | _ => false

theorem isUnknownTagErr_iff (e : Except ParseError ObjectType) :
    isUnknownTagErr e = true ↔ e = .error .UnknownObjectType := by
  cases e with
  | ok t => simp [isUnknownTagErr]
  | error pe => cases pe <;> simp [isUnknownTagErr]

/-- Helper (boolean form): a successful tag decode re-encodes to the same
tag byte. -/
def tagOkMatches (b : Byte) : Bool :=
  match ObjectType.tryFrom b.val with
  | .ok t => ObjectType.toU8 t == b.val
  | .error _ => true

set_option maxRecDepth 4096 in
theorem tagOkMatches_all : ∀ b : Byte, tagOkMatches b = true := by decide

theorem tryFrom_ok_toU8 (b : Byte) (t : ObjectType)
    (h : ObjectType.tryFrom b.val = .ok t) : ObjectType.toU8 t = b.val := by
  have hb := tagOkMatches_all b
  unfold tagOkMatches at hb
  rw [h] at hb
  simpa using hb


/-- The embedding of `struct ObjectId` from `object_pool/mod.rs`: a 16-bit
handle stored as its raw value. -/
structure ObjectId where
  raw : Nat
deriving DecidableEq

/-- The embedding of `ObjectId::NULL` (`ObjectId(0xFFFF)`). -/
def ObjectId.NULL : ObjectId := ⟨0xFFFF⟩

/-- The embedding of `impl Default for ObjectId` (returns `Self::NULL`). -/
def ObjectId.default : ObjectId := ObjectId.NULL

/-- The embedding of `impl From<u16> for ObjectId`. -/
def ObjectId.fromU16 (val : Nat) : ObjectId := ⟨val⟩

/-- The embedding of `impl From<ObjectId> for u16`. -/
def ObjectId.toU16 (val : ObjectId) : Nat := val.raw

/-- The embedding of `impl From<&[u8]> for ObjectId` from
`object_pool/mod.rs`: a slice of length 2 or more is read as a 2-byte
little-endian value, any shorter slice converts to `ObjectId::NULL`. -/
def ObjectId.fromSlice : List Byte → ObjectId
  | b0 :: b1 :: _ => ⟨b0.val + 256 * b1.val⟩
  | _ => ObjectId.NULL

/-- The embedding of `struct Colour` from `object_pool/mod.rs` (fields
a, r, g, b in declaration order). -/
structure Colour where
  a : Nat
  r : Nat
  g : Nat
  b : Nat
deriving DecidableEq

/-- The embedding of `impl From<u32> for Colour`: the four little-endian
bytes of the value become (r, g, b, a) in that byte order. -/
def Colour.fromU32 (val : Nat) : Colour :=
  { r := val % 256
    g := val / 256 % 256
    b := val / 65536 % 256
    a := val / 16777216 % 256 }

/-- The embedding of `Colour::COLOUR_PALETTE` from `object_pool/mod.rs`:
the fixed 256-entry default palette, transcribed entry for entry. -/
def Colour.COLOUR_PALETTE : List Colour := [
  Colour.mk 0xFF 0x00 0x00 0x00,
  Colour.mk 0xFF 0xFF 0xFF 0xFF,
  Colour.mk 0xFF 0x00 0x99 0x00,
  Colour.mk 0xFF 0x00 0x99 0x99,
  Colour.mk 0xFF 0x99 0x00 0x00,
  Colour.mk 0xFF 0x99 0x00 0x99,
  Colour.mk 0xFF 0x99 0x99 0x00,
  Colour.mk 0xFF 0xCC 0xCC 0xCC,
  Colour.mk 0xFF 0x99 0x99 0x99,
  Colour.mk 0xFF 0x00 0x00 0xFF,
  Colour.mk 0xFF 0x00 0xFF 0x00,
  Colour.mk 0xFF 0x00 0xFF 0xFF,
  Colour.mk 0xFF 0xFF 0x00 0x00,
  Colour.mk 0xFF 0xFF 0x00 0xFF,
  Colour.mk 0xFF 0xFF 0xFF 0x00,
  Colour.mk 0xFF 0x00 0x00 0x99,
  Colour.mk 0xFF 0x00 0x00 0x00,
  Colour.mk 0xFF 0x00 0x00 0x33,
  Colour.mk 0xFF 0x00 0x00 0x66,
  Colour.mk 0xFF 0x00 0x00 0x99,
  Colour.mk 0xFF 0x00 0x00 0xCC,
  Colour.mk 0xFF 0x00 0x00 0xFF,
  Colour.mk 0xFF 0x00 0x33 0x00,
  Colour.mk 0xFF 0x00 0x33 0x33,
  Colour.mk 0xFF 0x00 0x33 0x66,
  Colour.mk 0xFF 0x00 0x33 0x99,
  Colour.mk 0xFF 0x00 0x33 0xCC,
  Colour.mk 0xFF 0x00 0x33 0xFF,
  Colour.mk 0xFF 0x00 0x66 0x00,
  Colour.mk 0xFF 0x00 0x66 0x33,
  Colour.mk 0xFF 0x00 0x66 0x66,
  Colour.mk 0xFF 0x00 0x66 0x99,
  Colour.mk 0xFF 0x00 0x66 0xCC,
  Colour.mk 0xFF 0x00 0x66 0xFF,
  Colour.mk 0xFF 0x00 0x99 0x00,
  Colour.mk 0xFF 0x00 0x99 0x33,
  Colour.mk 0xFF 0x00 0x99 0x66,
  Colour.mk 0xFF 0x00 0x99 0x99,
  Colour.mk 0xFF 0x00 0x99 0xCC,
  Colour.mk 0xFF 0x00 0x99 0xFF,
  Colour.mk 0xFF 0x00 0xCC 0x00,
  Colour.mk 0xFF 0x00 0xCC 0x33,
  Colour.mk 0xFF 0x00 0xCC 0x66,
  Colour.mk 0xFF 0x00 0xCC 0x99,
  Colour.mk 0xFF 0x00 0xCC 0xCC,
  Colour.mk 0xFF 0x00 0xCC 0xFF,
  Colour.mk 0xFF 0x00 0xFF 0x00,
  Colour.mk 0xFF 0x00 0xFF 0x33,
  Colour.mk 0xFF 0x00 0xFF 0x66,
  Colour.mk 0xFF 0x00 0xFF 0x99,
  Colour.mk 0xFF 0x00 0xFF 0xCC,
  Colour.mk 0xFF 0x00 0xFF 0xFF,
  Colour.mk 0xFF 0x33 0x00 0x00,
  Colour.mk 0xFF 0x33 0x00 0x33,
  Colour.mk 0xFF 0x33 0x00 0x66,
  Colour.mk 0xFF 0x33 0x00 0x99,
  Colour.mk 0xFF 0x33 0x00 0xCC,
  Colour.mk 0xFF 0x33 0x00 0xFF,
  Colour.mk 0xFF 0x33 0x33 0x00,
  Colour.mk 0xFF 0x33 0x33 0x33,
  Colour.mk 0xFF 0x33 0x33 0x66,
  Colour.mk 0xFF 0x33 0x33 0x99,
  Colour.mk 0xFF 0x33 0x33 0xCC,
  Colour.mk 0xFF 0x33 0x33 0xFF,
  Colour.mk 0xFF 0x33 0x66 0x00,
  Colour.mk 0xFF 0x33 0x66 0x33,
  Colour.mk 0xFF 0x33 0x66 0x66,
  Colour.mk 0xFF 0x33 0x66 0x99,
  Colour.mk 0xFF 0x33 0x66 0xCC,
  Colour.mk 0xFF 0x33 0x66 0xFF,
  Colour.mk 0xFF 0x33 0x99 0x00,
  Colour.mk 0xFF 0x33 0x99 0x33,
  Colour.mk 0xFF 0x33 0x99 0x66,
  Colour.mk 0xFF 0x33 0x99 0x99,
  Colour.mk 0xFF 0x33 0x99 0xCC,
  Colour.mk 0xFF 0x33 0x99 0xFF,
  Colour.mk 0xFF 0x33 0xCC 0x00,
  Colour.mk 0xFF 0x33 0xCC 0x33,
  Colour.mk 0xFF 0x33 0xCC 0x66,
  Colour.mk 0xFF 0x33 0xCC 0x99,
  Colour.mk 0xFF 0x33 0xCC 0xCC,
  Colour.mk 0xFF 0x33 0xCC 0xFF,
  Colour.mk 0xFF 0x33 0xFF 0x00,
  Colour.mk 0xFF 0x33 0xFF 0x33,
  Colour.mk 0xFF 0x33 0xFF 0x66,
  Colour.mk 0xFF 0x33 0xFF 0x99,
  Colour.mk 0xFF 0x33 0xFF 0xCC,
  Colour.mk 0xFF 0x33 0xFF 0xFF,
  Colour.mk 0xFF 0x66 0x00 0x00,
  Colour.mk 0xFF 0x66 0x00 0x33,
  Colour.mk 0xFF 0x66 0x00 0x66,
  Colour.mk 0xFF 0x66 0x00 0x99,
  Colour.mk 0xFF 0x66 0x00 0xCC,
  Colour.mk 0xFF 0x66 0x00 0xFF,
  Colour.mk 0xFF 0x66 0x33 0x00,
  Colour.mk 0xFF 0x66 0x33 0x33,
  Colour.mk 0xFF 0x66 0x33 0x66,
  Colour.mk 0xFF 0x66 0x33 0x99,
  Colour.mk 0xFF 0x66 0x33 0xCC,
  Colour.mk 0xFF 0x66 0x33 0xFF,
  Colour.mk 0xFF 0x66 0x66 0x00,
  Colour.mk 0xFF 0x66 0x66 0x33,
  Colour.mk 0xFF 0x66 0x66 0x66,
  Colour.mk 0xFF 0x66 0x66 0x99,
  Colour.mk 0xFF 0x66 0x66 0xCC,
  Colour.mk 0xFF 0x66 0x66 0xFF,
  Colour.mk 0xFF 0x66 0x99 0x00,
  Colour.mk 0xFF 0x66 0x99 0x33,
  Colour.mk 0xFF 0x66 0x99 0x66,
  Colour.mk 0xFF 0x66 0x99 0x99,
  Colour.mk 0xFF 0x66 0x99 0xCC,
  Colour.mk 0xFF 0x66 0x99 0xFF,
  Colour.mk 0xFF 0x66 0xCC 0x00,
  Colour.mk 0xFF 0x66 0xCC 0x33,
  Colour.mk 0xFF 0x66 0xCC 0x66,
  Colour.mk 0xFF 0x66 0xCC 0x99,
  Colour.mk 0xFF 0x66 0xCC 0xCC,
  Colour.mk 0xFF 0x66 0xCC 0xFF,
  Colour.mk 0xFF 0x66 0xFF 0x00,
  Colour.mk 0xFF 0x66 0xFF 0x33,
  Colour.mk 0xFF 0x66 0xFF 0x66,
  Colour.mk 0xFF 0x66 0xFF 0x99,
  Colour.mk 0xFF 0x66 0xFF 0xCC,
  Colour.mk 0xFF 0x66 0xFF 0xFF,
  Colour.mk 0xFF 0x99 0x00 0x00,
  Colour.mk 0xFF 0x99 0x00 0x33,
  Colour.mk 0xFF 0x99 0x00 0x66,
  Colour.mk 0xFF 0x99 0x00 0x99,
  Colour.mk 0xFF 0x99 0x00 0xCC,
  Colour.mk 0xFF 0x99 0x00 0xFF,
  Colour.mk 0xFF 0x99 0x33 0x00,
  Colour.mk 0xFF 0x99 0x33 0x33,
  Colour.mk 0xFF 0x99 0x33 0x66,
  Colour.mk 0xFF 0x99 0x33 0x99,
  Colour.mk 0xFF 0x99 0x33 0xCC,
  Colour.mk 0xFF 0x99 0x33 0xFF,
  Colour.mk 0xFF 0x99 0x66 0x00,
  Colour.mk 0xFF 0x99 0x66 0x33,
  Colour.mk 0xFF 0x99 0x66 0x66,
  Colour.mk 0xFF 0x99 0x66 0x99,
  Colour.mk 0xFF 0x99 0x66 0xCC,
  Colour.mk 0xFF 0x99 0x66 0xFF,
  Colour.mk 0xFF 0x99 0x99 0x00,
  Colour.mk 0xFF 0x99 0x99 0x33,
  Colour.mk 0xFF 0x99 0x99 0x66,
  Colour.mk 0xFF 0x99 0x99 0x99,
  Colour.mk 0xFF 0x99 0x99 0xCC,
  Colour.mk 0xFF 0x99 0x99 0xFF,
  Colour.mk 0xFF 0x99 0xCC 0x00,
  Colour.mk 0xFF 0x99 0xCC 0x33,
  Colour.mk 0xFF 0x99 0xCC 0x66,
  Colour.mk 0xFF 0x99 0xCC 0x99,
  Colour.mk 0xFF 0x99 0xCC 0xCC,
  Colour.mk 0xFF 0x99 0xCC 0xFF,
  Colour.mk 0xFF 0x99 0xFF 0x00,
  Colour.mk 0xFF 0x99 0xFF 0x33,
  Colour.mk 0xFF 0x99 0xFF 0x66,
  Colour.mk 0xFF 0x99 0xFF 0x99,
  Colour.mk 0xFF 0x99 0xFF 0xCC,
  Colour.mk 0xFF 0x99 0xFF 0xFF,
  Colour.mk 0xFF 0xCC 0x00 0x00,
  Colour.mk 0xFF 0xCC 0x00 0x33,
  Colour.mk 0xFF 0xCC 0x00 0x66,
  Colour.mk 0xFF 0xCC 0x00 0x99,
  Colour.mk 0xFF 0xCC 0x00 0xCC,
  Colour.mk 0xFF 0xCC 0x00 0xFF,
  Colour.mk 0xFF 0xCC 0x33 0x00,
  Colour.mk 0xFF 0xCC 0x33 0x33,
  Colour.mk 0xFF 0xCC 0x33 0x66,
  Colour.mk 0xFF 0xCC 0x33 0x99,
  Colour.mk 0xFF 0xCC 0x33 0xCC,
  Colour.mk 0xFF 0xCC 0x33 0xFF,
  Colour.mk 0xFF 0xCC 0x66 0x00,
  Colour.mk 0xFF 0xCC 0x66 0x33,
  Colour.mk 0xFF 0xCC 0x66 0x66,
  Colour.mk 0xFF 0xCC 0x66 0x99,
  Colour.mk 0xFF 0xCC 0x66 0xCC,
  Colour.mk 0xFF 0xCC 0x66 0xFF,
  Colour.mk 0xFF 0xCC 0x99 0x00,
  Colour.mk 0xFF 0xCC 0x99 0x33,
  Colour.mk 0xFF 0xCC 0x99 0x66,
  Colour.mk 0xFF 0xCC 0x99 0x99,
  Colour.mk 0xFF 0xCC 0x99 0xCC,
  Colour.mk 0xFF 0xCC 0x99 0xFF,
  Colour.mk 0xFF 0xCC 0xCC 0x00,
  Colour.mk 0xFF 0xCC 0xCC 0x33,
  Colour.mk 0xFF 0xCC 0xCC 0x66,
  Colour.mk 0xFF 0xCC 0xCC 0x99,
  Colour.mk 0xFF 0xCC 0xCC 0xCC,
  Colour.mk 0xFF 0xCC 0xCC 0xFF,
  Colour.mk 0xFF 0xCC 0xFF 0x00,
  Colour.mk 0xFF 0xCC 0xFF 0x33,
  Colour.mk 0xFF 0xCC 0xFF 0x66,
  Colour.mk 0xFF 0xCC 0xFF 0x99,
  Colour.mk 0xFF 0xCC 0xFF 0xCC,
  Colour.mk 0xFF 0xCC 0xFF 0xFF,
  Colour.mk 0xFF 0xFF 0x00 0x00,
  Colour.mk 0xFF 0xFF 0x00 0x33,
  Colour.mk 0xFF 0xFF 0x00 0x66,
  Colour.mk 0xFF 0xFF 0x00 0x99,
  Colour.mk 0xFF 0xFF 0x00 0xCC,
  Colour.mk 0xFF 0xFF 0x00 0xFF,
  Colour.mk 0xFF 0xFF 0x33 0x00,
  Colour.mk 0xFF 0xFF 0x33 0x33,
  Colour.mk 0xFF 0xFF 0x33 0x66,
  Colour.mk 0xFF 0xFF 0x33 0x99,
  Colour.mk 0xFF 0xFF 0x33 0xCC,
  Colour.mk 0xFF 0xFF 0x33 0xFF,
  Colour.mk 0xFF 0xFF 0x66 0x00,
  Colour.mk 0xFF 0xFF 0x66 0x33,
  Colour.mk 0xFF 0xFF 0x66 0x66,
  Colour.mk 0xFF 0xFF 0x66 0x99,
  Colour.mk 0xFF 0xFF 0x66 0xCC,
  Colour.mk 0xFF 0xFF 0x66 0xFF,
  Colour.mk 0xFF 0xFF 0x99 0x00,
  Colour.mk 0xFF 0xFF 0x99 0x33,
  Colour.mk 0xFF 0xFF 0x99 0x66,
  Colour.mk 0xFF 0xFF 0x99 0x99,
  Colour.mk 0xFF 0xFF 0x99 0xCC,
  Colour.mk 0xFF 0xFF 0x99 0xFF,
  Colour.mk 0xFF 0xFF 0xCC 0x00,
  Colour.mk 0xFF 0xFF 0xCC 0x33,
  Colour.mk 0xFF 0xFF 0xCC 0x66,
  Colour.mk 0xFF 0xFF 0xCC 0x99,
  Colour.mk 0xFF 0xFF 0xCC 0xCC,
  Colour.mk 0xFF 0xFF 0xCC 0xFF,
  Colour.mk 0xFF 0xFF 0xFF 0x00,
  Colour.mk 0xFF 0xFF 0xFF 0x33,
  Colour.mk 0xFF 0xFF 0xFF 0x66,
  Colour.mk 0xFF 0xFF 0xFF 0x99,
  Colour.mk 0xFF 0xFF 0xFF 0xCC,
  Colour.mk 0xFF 0xFF 0xFF 0xFF,
  Colour.mk 0xFF 0x00 0x00 0x00,
  Colour.mk 0xFF 0x00 0x00 0x00,
  Colour.mk 0xFF 0x00 0x00 0x00,
  Colour.mk 0xFF 0x00 0x00 0x00,
  Colour.mk 0xFF 0x00 0x00 0x00,
  Colour.mk 0xFF 0x00 0x00 0x00,
  Colour.mk 0xFF 0x00 0x00 0x00,
  Colour.mk 0xFF 0x00 0x00 0x00,
  Colour.mk 0xFF 0x00 0x00 0x00,
  Colour.mk 0xFF 0x00 0x00 0x00,
  Colour.mk 0xFF 0x00 0x00 0x00,
  Colour.mk 0xFF 0x00 0x00 0x00,
  Colour.mk 0xFF 0x00 0x00 0x00,
  Colour.mk 0xFF 0x00 0x00 0x00,
  Colour.mk 0xFF 0x00 0x00 0x00,
  Colour.mk 0xFF 0x00 0x00 0x00,
  Colour.mk 0xFF 0x00 0x00 0x00,
  Colour.mk 0xFF 0x00 0x00 0x00,
  Colour.mk 0xFF 0x00 0x00 0x00,
  Colour.mk 0xFF 0x00 0x00 0x00,
  Colour.mk 0xFF 0x00 0x00 0x00,
  Colour.mk 0xFF 0x00 0x00 0x00,
  Colour.mk 0xFF 0x00 0x00 0x00,
  Colour.mk 0xFF 0x00 0x00 0x00]

/-- The embedding of `struct Point<T>` from `object_pool/mod.rs`. -/
structure Point (α : Type) where
  x : α
  y : α

/-- The embedding of `struct ObjectRef` from `object_pool/mod.rs`
(a child id plus a signed 2-D offset). -/
structure ObjectRef where
  id : ObjectId
  offset : Point Int

/-- The embedding of `struct MacroRef` from `object_pool/mod.rs`. -/
structure MacroRef where
  macroId : Nat
  eventId : Nat

/-- Modelled from the spec: `Name` is an opaque 64-bit ISO NAME value
(its defining module is outside the codec core); embedded as the raw
64-bit numeric value carried verbatim. -/
def Name := Nat

/-- An IEEE-754 single-precision field, embedded as its raw 32-bit
pattern (the codec moves such fields bit-for-bit). -/
def Float32Bits := Nat

/-- The embedding of `struct ObjectLabel` from `object_pool/mod.rs`. -/
structure ObjectLabel where
  id : ObjectId
  stringVariableReference : ObjectId
  fontType : Nat
  graphicRepresentation : ObjectId

/-- The embedding of `struct WorkingSet` from `object_pool/mod.rs`. -/
structure WorkingSet where
  id : ObjectId
  backgroundColour : Nat
  selectable : Bool
  activeMask : ObjectId
  objectRefs : List ObjectRef
  macroRefs : List MacroRef
  languageCodes : List String

/-- The embedding of `struct DataMask` from `object_pool/mod.rs`. -/
structure DataMask where
  id : ObjectId
  backgroundColour : Nat
  softKeyMask : ObjectId
  objectRefs : List ObjectRef
  macroRefs : List MacroRef

/-- The embedding of `struct AlarmMask` from `object_pool/mod.rs`. -/
structure AlarmMask where
  id : ObjectId
  backgroundColour : Nat
  softKeyMask : ObjectId
  priority : Nat
  acousticSignal : Nat
  objectRefs : List ObjectRef
  macroRefs : List MacroRef

/-- The embedding of `struct Container` from `object_pool/mod.rs`. -/
structure Container where
  id : ObjectId
  width : Nat
  height : Nat
  hidden : Bool
  objectRefs : List ObjectRef
  macroRefs : List MacroRef

/-- The embedding of `struct SoftKeyMask` from `object_pool/mod.rs`. -/
structure SoftKeyMask where
  id : ObjectId
  backgroundColour : Nat
  objects : List ObjectId
  macroRefs : List MacroRef

/-- The embedding of `struct Key` from `object_pool/mod.rs`. -/
structure Key where
  id : ObjectId
  backgroundColour : Nat
  keyCode : Nat
  objectRefs : List ObjectRef
  macroRefs : List MacroRef

/-- The embedding of `struct Button` from `object_pool/mod.rs`. -/
structure Button where
  id : ObjectId
  width : Nat
  height : Nat
  backgroundColour : Nat
  borderColour : Nat
  keyCode : Nat
  options : Nat
  objectRefs : List ObjectRef
  macroRefs : List MacroRef

/-- The embedding of `struct InputBoolean` from `object_pool/mod.rs`. -/
structure InputBoolean where
  id : ObjectId
  backgroundColour : Nat
  width : Nat
  foregroundColour : ObjectId
  variableReference : ObjectId
  value : Bool
  enabled : Bool
  macroRefs : List MacroRef

/-- The embedding of `struct InputString` from `object_pool/mod.rs`. -/
structure InputString where
  id : ObjectId
  width : Nat
  height : Nat
  backgroundColour : Nat
  fontAttributes : ObjectId
  inputAttributes : ObjectId
  options : Nat
  variableReference : ObjectId
  justification : Nat
  value : String
  enabled : Bool
  macroRefs : List MacroRef

/-- The embedding of `struct InputNumber` from `object_pool/mod.rs`. -/
structure InputNumber where
  id : ObjectId
  width : Nat
  height : Nat
  backgroundColour : Nat
  fontAttributes : ObjectId
  options : Nat
  variableReference : ObjectId
  value : Nat
  minValue : Nat
  maxValue : Nat
  offset : Int
  scale : Float32Bits
  nrOfDecimals : Nat
  format : Bool
  justification : Nat
  options2 : Nat
  macroRefs : List MacroRef

/-- The embedding of `struct InputList` from `object_pool/mod.rs`. -/
structure InputList where
  id : ObjectId
  width : Nat
  height : Nat
  variableReference : ObjectId
  value : Nat
  options : Nat
  listItems : List ObjectId
  macroRefs : List MacroRef

/-- The embedding of `struct OutputString` from `object_pool/mod.rs`. -/
structure OutputString where
  id : ObjectId
  width : Nat
  height : Nat
  backgroundColour : Nat
  fontAttributes : ObjectId
  options : Nat
  variableReference : ObjectId
  justification : Nat
  value : String
  macroRefs : List MacroRef

/-- The embedding of `struct OutputNumber` from `object_pool/mod.rs`. -/
structure OutputNumber where
  id : ObjectId
  width : Nat
  height : Nat
  backgroundColour : Nat
  fontAttributes : ObjectId
  options : Nat
  variableReference : ObjectId
  value : Nat
  offset : Int
  scale : Float32Bits
  nrOfDecimals : Nat
  format : Bool
  justification : Nat
  macroRefs : List MacroRef

/-- The embedding of `struct OutputLine` from `object_pool/mod.rs`. -/
structure OutputLine where
  id : ObjectId
  lineAttributes : ObjectId
  width : Nat
  height : Nat
  lineDirection : Nat
  macroRefs : List MacroRef

/-- The embedding of `struct OutputRectangle` from `object_pool/mod.rs`. -/
structure OutputRectangle where
  id : ObjectId
  lineAttributes : ObjectId
  width : Nat
  height : Nat
  lineSuppression : Nat
  fillAttributes : ObjectId
  macroRefs : List MacroRef

/-- The embedding of `struct OutputEllipse` from `object_pool/mod.rs`. -/
structure OutputEllipse where
  id : ObjectId
  lineAttributes : ObjectId
  width : Nat
  height : Nat
  ellipseType : Nat
  startAngle : Nat
  endAngle : Nat
  fillAttributes : ObjectId
  macroRefs : List MacroRef

/-- The embedding of `struct OutputPolygon` from `object_pool/mod.rs`. -/
structure OutputPolygon where
  id : ObjectId
  width : Nat
  height : Nat
  lineAttributes : ObjectId
  fillAttributes : ObjectId
  polygonType : Nat
  points : List (Point Nat)
  macroRefs : List MacroRef

/-- The embedding of `struct OutputMeter` from `object_pool/mod.rs`. -/
structure OutputMeter where
  id : ObjectId
  width : Nat
  needleColour : Nat
  borderColour : Nat
  arcAndTickColour : Nat
  options : Nat
  nrOfTicks : Nat
  startAngle : Nat
  endAngle : Nat
  minValue : Nat
  maxValue : Nat
  variableReference : ObjectId
  value : Nat
  macroRefs : List MacroRef

/-- The embedding of `struct OutputLinearBarGraph` from `object_pool/mod.rs`. -/
structure OutputLinearBarGraph where
  id : ObjectId
  width : Nat
  height : Nat
  colour : Nat
  targetLineColour : Nat
  options : Nat
  nrOfTicks : Nat
  minValue : Nat
  maxValue : Nat
  variableReference : ObjectId
  value : Nat
  targetValueVariableReference : ObjectId
  targetValue : Nat
  macroRefs : List MacroRef

/-- The embedding of `struct OutputArchedBarGraph` from `object_pool/mod.rs`. -/
structure OutputArchedBarGraph where
  id : ObjectId
  width : Nat
  height : Nat
  colour : Nat
  targetLineColour : Nat
  options : Nat
  startAngle : Nat
  endAngle : Nat
  barGraphWidth : Nat
  minValue : Nat
  maxValue : Nat
  variableReference : ObjectId
  value : Nat
  targetValueVariableReference : ObjectId
  targetValue : Nat
  macroRefs : List MacroRef

/-- The embedding of `struct PictureGraphic` from `object_pool/mod.rs`. -/
structure PictureGraphic where
  id : ObjectId
  width : Nat
  actualWidth : Nat
  actualHeight : Nat
  format : Nat
  options : Nat
  transparencyColour : Nat
  data : List Byte
  macroRefs : List MacroRef

/-- The embedding of `struct NumberVariable` from `object_pool/mod.rs`. -/
structure NumberVariable where
  id : ObjectId
  value : Nat

/-- The embedding of `struct StringVariable` from `object_pool/mod.rs`. -/
structure StringVariable where
  id : ObjectId
  value : String

/-- The embedding of `struct FontAttributes` from `object_pool/mod.rs`. -/
structure FontAttributes where
  id : ObjectId
  fontColour : Nat
  fontSize : Nat
  fontType : Nat
  fontStyle : Nat
  macroRefs : List MacroRef

/-- The embedding of `struct LineAttributes` from `object_pool/mod.rs`. -/
structure LineAttributes where
  id : ObjectId
  lineColour : Nat
  lineWidth : Nat
  lineArt : Nat
  macroRefs : List MacroRef

/-- The embedding of `struct FillAttributes` from `object_pool/mod.rs`. -/
structure FillAttributes where
  id : ObjectId
  fillType : Nat
  fillColour : Nat
  fillPattern : ObjectId
  macroRefs : List MacroRef

/-- The embedding of `struct InputAttributes` from `object_pool/mod.rs`. -/
structure InputAttributes where
  id : ObjectId
  validationType : Nat
  validationString : String
  macroRefs : List MacroRef

/-- The embedding of `struct ObjectPointer` from `object_pool/mod.rs`. -/
structure ObjectPointer where
  id : ObjectId
  value : ObjectId

/-- The embedding of `struct Macro` from `object_pool/mod.rs`. -/
structure Macro where
  id : ObjectId
  commands : List Byte

/-- The embedding of `struct AuxiliaryFunctionType1` from `object_pool/mod.rs`. -/
structure AuxiliaryFunctionType1 where
  id : ObjectId
  backgroundColour : Nat
  functionType : Nat
  objectRefs : List ObjectRef

/-- The embedding of `struct AuxiliaryInputType1` from `object_pool/mod.rs`. -/
structure AuxiliaryInputType1 where
  id : ObjectId
  backgroundColour : Nat
  functionType : Nat
  inputId : Nat
  objectRefs : List ObjectRef

/-- The embedding of `struct AuxiliaryFunctionType2` from `object_pool/mod.rs`. -/
structure AuxiliaryFunctionType2 where
  id : ObjectId
  backgroundColour : Nat
  functionAttributes : Nat
  objectRefs : List ObjectRef

/-- The embedding of `struct AuxiliaryInputType2` from `object_pool/mod.rs`. -/
structure AuxiliaryInputType2 where
  id : ObjectId
  backgroundColour : Nat
  functionAttributes : Nat
  objectRefs : List ObjectRef

/-- The embedding of `struct AuxiliaryControlDesignatorType2` from `object_pool/mod.rs`. -/
structure AuxiliaryControlDesignatorType2 where
  id : ObjectId
  pointerType : Nat
  auxiliaryObjectId : ObjectId

/-- The embedding of `struct WindowMask` from `object_pool/mod.rs`. -/
structure WindowMask where
  id : ObjectId
  width : Nat
  height : Nat
  windowType : Nat
  backgroundColour : Nat
  options : Nat
  name : ObjectId
  windowTitle : ObjectId
  windowIcon : ObjectId
  objects : List ObjectId
  objectRefs : List ObjectRef
  macroRefs : List MacroRef

/-- The embedding of `struct KeyGroup` from `object_pool/mod.rs`. -/
structure KeyGroup where
  id : ObjectId
  options : Nat
  name : ObjectId
  keyGroupIcon : ObjectId
  objects : List ObjectId
  macroRefs : List MacroRef

/-- The embedding of `struct GraphicsContext` from `object_pool/mod.rs`. -/
structure GraphicsContext where
  id : ObjectId
  viewportWidth : Nat
  viewportHeight : Nat
  viewportX : Int
  viewportY : Int
  canvasWidth : Nat
  canvasHeight : Nat
  viewportZoom : Float32Bits
  graphicsCursorX : Int
  graphicsCursorY : Int
  foregroundColour : Nat
  backgroundColour : Nat
  fontAttributesObject : ObjectId
  lineAttributesObject : ObjectId
  fillAttributesObject : ObjectId
  format : Nat
  options : Nat
  transparencyColour : Nat

/-- The embedding of `struct OutputList` from `object_pool/mod.rs`. -/
structure OutputList where
  id : ObjectId
  width : Nat
  height : Nat
  variableReference : ObjectId
  value : Nat
  listItems : List ObjectId
  macroRefs : List MacroRef

/-- The embedding of `struct ExtendedInputAttributes` from `object_pool/mod.rs`. -/
structure ExtendedInputAttributes where
  id : ObjectId
  validationType : Nat
  nrOfCodePlanes : Nat

/-- The embedding of `struct ColourMap` from `object_pool/mod.rs`. -/
structure ColourMap where
  id : ObjectId
  colourMap : List Byte

/-- The embedding of `struct ObjectLabelReferenceList` from `object_pool/mod.rs`. -/
structure ObjectLabelReferenceList where
  id : ObjectId
  objectLabels : List ObjectLabel

/-- The embedding of `struct ExternalObjectDefinition` from `object_pool/mod.rs`. -/
structure ExternalObjectDefinition where
  id : ObjectId
  options : Nat
  name : Name
  objects : List ObjectId

/-- The embedding of `struct ExternalReferenceName` from `object_pool/mod.rs`. -/
structure ExternalReferenceName where
  id : ObjectId
  options : Nat
  name : Name

/-- The embedding of `struct ExternalObjectPointer` from `object_pool/mod.rs`. -/
structure ExternalObjectPointer where
  id : ObjectId
  defaultObjectId : ObjectId
  externalReferenceNameId : ObjectId
  externalObjectId : ObjectId

/-- The embedding of `struct Animation` from `object_pool/mod.rs`. -/
structure Animation where
  id : ObjectId
  width : Nat
  height : Nat
  refreshInterval : Nat
  value : Nat
  enabled : Bool
  firstChildIndex : Nat
  lastChildIndex : Nat
  defaultChildIndex : Nat
  options : Nat
  objectRefs : List ObjectRef
  macroRefs : List MacroRef

/-- The embedding of `struct ColourPalette` from `object_pool/mod.rs`. -/
structure ColourPalette where
  id : ObjectId
  options : Nat
  colours : List Colour

/-- The embedding of `struct GraphicData` from `object_pool/mod.rs`. -/
structure GraphicData where
  id : ObjectId
  format : Nat
  data : List Byte

/-- The embedding of `struct WorkingSetSpecialControls` from `object_pool/mod.rs`. -/
structure WorkingSetSpecialControls where
  id : ObjectId
  idOfColourMap : ObjectId
  idOfColourPalette : ObjectId
  languagePairs : List (String × String)

/-- The embedding of `struct ScalesGraphic` from `object_pool/mod.rs`. -/
structure ScalesGraphic where
  id : ObjectId
  width : Nat
  height : Nat
  scaleType : Nat
  options : Nat
  value : Nat
  macroRefs : List MacroRef

/-- The embedding of the `Object` enum from `object_pool/mod.rs`:
the closed tagged union over the 49 object kinds. -/
inductive Object
  | WorkingSet (o : AgIso.WorkingSet)
  | DataMask (o : AgIso.DataMask)
  | AlarmMask (o : AgIso.AlarmMask)
  | Container (o : AgIso.Container)
  | SoftKeyMask (o : AgIso.SoftKeyMask)
  | Key (o : AgIso.Key)
  | Button (o : AgIso.Button)
  | InputBoolean (o : AgIso.InputBoolean)
  | InputString (o : AgIso.InputString)
  | InputNumber (o : AgIso.InputNumber)
  | InputList (o : AgIso.InputList)
  | OutputString (o : AgIso.OutputString)
  | OutputNumber (o : AgIso.OutputNumber)
  | OutputLine (o : AgIso.OutputLine)
  | OutputRectangle (o : AgIso.OutputRectangle)
  | OutputEllipse (o : AgIso.OutputEllipse)
  | OutputPolygon (o : AgIso.OutputPolygon)
  | OutputMeter (o : AgIso.OutputMeter)
  | OutputLinearBarGraph (o : AgIso.OutputLinearBarGraph)
  | OutputArchedBarGraph (o : AgIso.OutputArchedBarGraph)
  | PictureGraphic (o : AgIso.PictureGraphic)
  | NumberVariable (o : AgIso.NumberVariable)
  | StringVariable (o : AgIso.StringVariable)
  | FontAttributes (o : AgIso.FontAttributes)
  | LineAttributes (o : AgIso.LineAttributes)
  | FillAttributes (o : AgIso.FillAttributes)
  | InputAttributes (o : AgIso.InputAttributes)
  | ObjectPointer (o : AgIso.ObjectPointer)
  | Macro (o : AgIso.Macro)
  | AuxiliaryFunctionType1 (o : AgIso.AuxiliaryFunctionType1)
  | AuxiliaryInputType1 (o : AgIso.AuxiliaryInputType1)
  | AuxiliaryFunctionType2 (o : AgIso.AuxiliaryFunctionType2)
  | AuxiliaryInputType2 (o : AgIso.AuxiliaryInputType2)
  | AuxiliaryControlDesignatorType2 (o : AgIso.AuxiliaryControlDesignatorType2)
  | WindowMask (o : AgIso.WindowMask)
  | KeyGroup (o : AgIso.KeyGroup)
  | GraphicsContext (o : AgIso.GraphicsContext)
  | OutputList (o : AgIso.OutputList)
  | ExtendedInputAttributes (o : AgIso.ExtendedInputAttributes)
  | ColourMap (o : AgIso.ColourMap)
  | ObjectLabelReferenceList (o : AgIso.ObjectLabelReferenceList)
  | ExternalObjectDefinition (o : AgIso.ExternalObjectDefinition)
  | ExternalReferenceName (o : AgIso.ExternalReferenceName)
  | ExternalObjectPointer (o : AgIso.ExternalObjectPointer)
  | Animation (o : AgIso.Animation)
  | ColourPalette (o : AgIso.ColourPalette)
  | GraphicData (o : AgIso.GraphicData)
  | WorkingSetSpecialControls (o : AgIso.WorkingSetSpecialControls)
  | ScalesGraphic (o : AgIso.ScalesGraphic)

/-- The embedding of `Object::id` from `object_pool/mod.rs`. -/
def Object.id : Object → ObjectId
  | .WorkingSet o => o.id
  | .DataMask o => o.id
  | .AlarmMask o => o.id
  | .Container o => o.id
  | .SoftKeyMask o => o.id
  | .Key o => o.id
  | .Button o => o.id
  | .InputBoolean o => o.id
  | .InputString o => o.id
  | .InputNumber o => o.id
  | .InputList o => o.id
  | .OutputString o => o.id
  | .OutputNumber o => o.id
  | .OutputLine o => o.id
  | .OutputRectangle o => o.id
  | .OutputEllipse o => o.id
  | .OutputPolygon o => o.id
  | .OutputMeter o => o.id
  | .OutputLinearBarGraph o => o.id
  | .OutputArchedBarGraph o => o.id
  | .PictureGraphic o => o.id
  | .NumberVariable o => o.id
  | .StringVariable o => o.id
  | .FontAttributes o => o.id
  | .LineAttributes o => o.id
  | .FillAttributes o => o.id
  | .InputAttributes o => o.id
  | .ObjectPointer o => o.id
  | .Macro o => o.id
  | .AuxiliaryFunctionType1 o => o.id
  | .AuxiliaryInputType1 o => o.id
  | .AuxiliaryFunctionType2 o => o.id
  | .AuxiliaryInputType2 o => o.id
  | .AuxiliaryControlDesignatorType2 o => o.id
  | .WindowMask o => o.id
  | .KeyGroup o => o.id
  | .GraphicsContext o => o.id
  | .OutputList o => o.id
  | .ExtendedInputAttributes o => o.id
  | .ColourMap o => o.id
  | .ObjectLabelReferenceList o => o.id
  | .ExternalObjectDefinition o => o.id
  | .ExternalReferenceName o => o.id
  | .ExternalObjectPointer o => o.id
  | .Animation o => o.id
  | .ColourPalette o => o.id
  | .GraphicData o => o.id
  | .WorkingSetSpecialControls o => o.id
  | .ScalesGraphic o => o.id

/-- The embedding of `Object::object_type` from `object_pool/mod.rs`. -/
def Object.objectType : Object → ObjectType
  | .WorkingSet _ => .WorkingSet
  | .DataMask _ => .DataMask
  | .AlarmMask _ => .AlarmMask
  | .Container _ => .Container
  | .SoftKeyMask _ => .SoftKeyMask
  | .Key _ => .Key
  | .Button _ => .Button
  | .InputBoolean _ => .InputBoolean
  | .InputString _ => .InputString
  | .InputNumber _ => .InputNumber
  | .InputList _ => .InputList
  | .OutputString _ => .OutputString
  | .OutputNumber _ => .OutputNumber
  | .OutputLine _ => .OutputLine
  | .OutputRectangle _ => .OutputRectangle
  | .OutputEllipse _ => .OutputEllipse
  | .OutputPolygon _ => .OutputPolygon
  | .OutputMeter _ => .OutputMeter
  | .OutputLinearBarGraph _ => .OutputLinearBarGraph
  | .OutputArchedBarGraph _ => .OutputArchedBarGraph
  | .PictureGraphic _ => .PictureGraphic
  | .NumberVariable _ => .NumberVariable
  | .StringVariable _ => .StringVariable
  | .FontAttributes _ => .FontAttributes
  | .LineAttributes _ => .LineAttributes
  | .FillAttributes _ => .FillAttributes
  | .InputAttributes _ => .InputAttributes
  | .ObjectPointer _ => .ObjectPointer
  | .Macro _ => .Macro
  | .AuxiliaryFunctionType1 _ => .AuxiliaryFunctionType1
  | .AuxiliaryInputType1 _ => .AuxiliaryInputType1
  | .AuxiliaryFunctionType2 _ => .AuxiliaryFunctionType2
  | .AuxiliaryInputType2 _ => .AuxiliaryInputType2
  | .AuxiliaryControlDesignatorType2 _ => .AuxiliaryControlDesignatorType2
  | .WindowMask _ => .WindowMask
  | .KeyGroup _ => .KeyGroup
  | .GraphicsContext _ => .GraphicsContext
  | .OutputList _ => .OutputList
  | .ExtendedInputAttributes _ => .ExtendedInputAttributes
  | .ColourMap _ => .ColourMap
  | .ObjectLabelReferenceList _ => .ObjectLabelReferenceList
  | .ExternalObjectDefinition _ => .ExternalObjectDefinition
  | .ExternalReferenceName _ => .ExternalReferenceName
  | .ExternalObjectPointer _ => .ExternalObjectPointer
  | .Animation _ => .Animation
  | .ColourPalette _ => .ColourPalette
  | .GraphicData _ => .GraphicData
  | .WorkingSetSpecialControls _ => .WorkingSetSpecialControls
  | .ScalesGraphic _ => .ScalesGraphic

/-- Modelled from the spec: the wire tag assigned to each `Object`
variant by the declaration order of the kind list in section 3 of the
spec (WorkingSet=0 through ScalesGraphic=48). -/
def Object.wireTag : Object → Nat
  | .WorkingSet _ => 0
  | .DataMask _ => 1
  | .AlarmMask _ => 2
  | .Container _ => 3
  | .SoftKeyMask _ => 4
  | .Key _ => 5
  | .Button _ => 6
  | .InputBoolean _ => 7
  | .InputString _ => 8
  | .InputNumber _ => 9
  | .InputList _ => 10
  | .OutputString _ => 11
  | .OutputNumber _ => 12
  | .OutputLine _ => 13
  | .OutputRectangle _ => 14
  | .OutputEllipse _ => 15
  | .OutputPolygon _ => 16
  | .OutputMeter _ => 17
  | .OutputLinearBarGraph _ => 18
  | .OutputArchedBarGraph _ => 19
  | .PictureGraphic _ => 20
  | .NumberVariable _ => 21
  | .StringVariable _ => 22
  | .FontAttributes _ => 23
  | .LineAttributes _ => 24
  | .FillAttributes _ => 25
  | .InputAttributes _ => 26
  | .ObjectPointer _ => 27
  | .Macro _ => 28
  | .AuxiliaryFunctionType1 _ => 29
  | .AuxiliaryInputType1 _ => 30
  | .AuxiliaryFunctionType2 _ => 31
  | .AuxiliaryInputType2 _ => 32
  | .AuxiliaryControlDesignatorType2 _ => 33
  | .WindowMask _ => 34
  | .KeyGroup _ => 35
  | .GraphicsContext _ => 36
  | .OutputList _ => 37
  | .ExtendedInputAttributes _ => 38
  | .ColourMap _ => 39
  | .ObjectLabelReferenceList _ => 40
  | .ExternalObjectDefinition _ => 41
  | .ExternalReferenceName _ => 42
  | .ExternalObjectPointer _ => 43
  | .Animation _ => 44
  | .ColourPalette _ => 45
  | .GraphicData _ => 46
  | .WorkingSetSpecialControls _ => 47
  | .ScalesGraphic _ => 48


/-- Modelled from the spec: the field shapes used by the Reader/Writer
(`reader.rs`/`writer.rs` are declared in `object_pool/mod.rs` but their
source is not provided). Fixed fields are little-endian unsigned
integers of 1/2/4 bytes, two's-complement signed integers, IEEE-754
single floats (kept as their raw 4-byte bit pattern), booleans stored
as one byte, 2-byte ObjectIds, the opaque 8-byte NAME, and counted byte
strings (a one-byte length then that many bytes). -/
inductive FieldTy
  | u8
  | u16
  | u32
  | f32
  | oid
  | name
  | i16
  | i32
  | boolean
  | bstr
deriving DecidableEq

/-- Modelled from the spec: a decoded field value of one of the shapes
of `FieldTy`. -/
inductive FieldVal
  | num (v : Nat)
  | int (v : Int)
  | bit (b : Bool)
  | str (bs : List Byte)
deriving DecidableEq

/-- Two's-complement reading of a 16-bit raw value (the embedding of
`i16::from_le_bytes` on the value already assembled little-endian). -/
def toSigned16 (raw : Nat) : Int :=
  if raw < 32768 then (raw : Int) else (raw : Int) - 65536

/-- Two's-complement 16-bit raw value of a signed integer (the embedding
of `i16::to_le_bytes`, byte production delegated to `leBytes`). -/
def fromSigned16 (v : Int) : Nat := (v % 65536).toNat

/-- Two's-complement reading of a 32-bit raw value (the embedding of
`i32::from_le_bytes`). -/
def toSigned32 (raw : Nat) : Int :=
  if raw < 2147483648 then (raw : Int) else (raw : Int) - 4294967296

/-- Two's-complement 32-bit raw value of a signed integer (the embedding
of `i32::to_le_bytes`). -/
def fromSigned32 (v : Int) : Nat := (v % 4294967296).toNat

theorem fromSigned16_toSigned16 (n : Nat) (h : n < 65536) :
    fromSigned16 (toSigned16 n) = n := by
  unfold toSigned16 fromSigned16
  split <;> omega

theorem fromSigned32_toSigned32 (n : Nat) (h : n < 4294967296) :
    fromSigned32 (toSigned32 n) = n := by
  unfold toSigned32 fromSigned32
  split <;> omega

theorem leBytes_one (c : Byte) : leBytes 1 c.val = [c] := by
  have hc := c.isLt
  have h1 : c.val % 256 = c.val := Nat.mod_eq_of_lt hc
  simp [leBytes, Fin.ext_iff, h1]

/-- Modelled from the spec: read one fixed field off the front of the
buffer per its declared shape (spec section 4.2 step 3). -/
def readField : FieldTy → List Byte → Option (FieldVal × List Byte)
  | .u8, bs => (readNum 1 bs).map fun p => (.num p.1, p.2)
  | .u16, bs => (readNum 2 bs).map fun p => (.num p.1, p.2)
  | .u32, bs => (readNum 4 bs).map fun p => (.num p.1, p.2)
  | .f32, bs => (readNum 4 bs).map fun p => (.num p.1, p.2)
  | .oid, bs => (readNum 2 bs).map fun p => (.num p.1, p.2)
  | .name, bs => (readNum 8 bs).map fun p => (.num p.1, p.2)
  | .i16, bs => (readNum 2 bs).map fun p => (.int (toSigned16 p.1), p.2)
  | .i32, bs => (readNum 4 bs).map fun p => (.int (toSigned32 p.1), p.2)
  | .boolean, bs =>
    match bs with
    | [] => none
    | b :: rest =>
      if b.val = 0 then some (.bit false, rest)
      else if b.val = 1 then some (.bit true, rest)
      else none
  | .bstr, bs =>
    match bs with
    | [] => none
    | c :: rest => (takeBytes c.val rest).map fun p => (.str p.1, p.2)

/-- Modelled from the spec: write one fixed field (spec section 4.3, the
Writer is the exact structural inverse of the Reader). A value/shape
mismatch — impossible for decoder-produced values — writes nothing. -/
def writeField : FieldTy → FieldVal → List Byte
  | .u8, .num v => leBytes 1 v
  | .u16, .num v => leBytes 2 v
  | .u32, .num v => leBytes 4 v
  | .f32, .num v => leBytes 4 v
  | .oid, .num v => leBytes 2 v
  | .name, .num v => leBytes 8 v
  | .i16, .int v => leBytes 2 (fromSigned16 v)
  | .i32, .int v => leBytes 4 (fromSigned32 v)
  | .boolean, .bit b => [⟨if b then 1 else 0, by split <;> omega⟩]
  | .bstr, .str xs => leBytes 1 xs.length ++ xs
  | _, _ => []

theorem readField_rt (ty : FieldTy) (bs : List Byte) (v : FieldVal)
    (rest : List Byte) (h : readField ty bs = some (v, rest)) :
    writeField ty v ++ rest = bs := by
  cases ty
  case u8 =>
    simp only [readField, Option.map_eq_some'] at h
    obtain ⟨p, hp, he⟩ := h
    injection he with he1 he2; subst he1; subst he2
    exact (readNum_spec _ _ _ _ hp).1
  case u16 =>
    simp only [readField, Option.map_eq_some'] at h
    obtain ⟨p, hp, he⟩ := h
    injection he with he1 he2; subst he1; subst he2
    exact (readNum_spec _ _ _ _ hp).1
  case u32 =>
    simp only [readField, Option.map_eq_some'] at h
    obtain ⟨p, hp, he⟩ := h
    injection he with he1 he2; subst he1; subst he2
    exact (readNum_spec _ _ _ _ hp).1
  case f32 =>
    simp only [readField, Option.map_eq_some'] at h
    obtain ⟨p, hp, he⟩ := h
    injection he with he1 he2; subst he1; subst he2
    exact (readNum_spec _ _ _ _ hp).1
  case oid =>
    simp only [readField, Option.map_eq_some'] at h
    obtain ⟨p, hp, he⟩ := h
    injection he with he1 he2; subst he1; subst he2
    exact (readNum_spec _ _ _ _ hp).1
  case name =>
    simp only [readField, Option.map_eq_some'] at h
    obtain ⟨p, hp, he⟩ := h
    injection he with he1 he2; subst he1; subst he2
    exact (readNum_spec _ _ _ _ hp).1
  case i16 =>
    simp only [readField, Option.map_eq_some'] at h
    obtain ⟨p, hp, he⟩ := h
    injection he with he1 he2; subst he1; subst he2
    obtain ⟨hrt, hlt⟩ := readNum_spec _ _ _ _ hp
    simp only [writeField]
    rw [fromSigned16_toSigned16 p.1 (by norm_num at hlt; omega)]
    exact hrt
  case i32 =>
    simp only [readField, Option.map_eq_some'] at h
    obtain ⟨p, hp, he⟩ := h
    injection he with he1 he2; subst he1; subst he2
    obtain ⟨hrt, hlt⟩ := readNum_spec _ _ _ _ hp
    simp only [writeField]
    rw [fromSigned32_toSigned32 p.1 (by norm_num at hlt; omega)]
    exact hrt
  case boolean =>
    cases bs with
    | nil => simp [readField] at h
    | cons b rest0 =>
      simp only [readField] at h
      by_cases h0 : b.val = 0
      · rw [if_pos h0] at h
        simp only [Option.some.injEq, Prod.mk.injEq] at h
        obtain ⟨h1, h2⟩ := h; subst h1; subst h2
        simp only [writeField, List.singleton_append]
        exact congrArg (· :: rest0) (Fin.ext (by simp [h0]))
      · rw [if_neg h0] at h
        by_cases h1 : b.val = 1
        · rw [if_pos h1] at h
          simp only [Option.some.injEq, Prod.mk.injEq] at h
          obtain ⟨hv, hr⟩ := h; subst hv; subst hr
          simp only [writeField, List.singleton_append]
          exact congrArg (· :: rest0) (Fin.ext (by simp [h1]))
        · rw [if_neg h1] at h
          simp at h
  case bstr =>
    cases bs with
    | nil => simp [readField] at h
    | cons c rest0 =>
      simp only [readField, Option.map_eq_some'] at h
      obtain ⟨p, hp, he⟩ := h
      injection he with he1 he2; subst he1; subst he2
      obtain ⟨hl, ha⟩ := takeBytes_spec c.val rest0 p.1 p.2 hp
      simp only [writeField, hl, leBytes_one, List.append_assoc,
        List.singleton_append, List.cons_append, List.nil_append]
      rw [ha]

/-- Modelled from the spec: read a kind's fixed fields in declared order
(spec section 4.2 step 3). -/
def readFields : List FieldTy → List Byte → Option (List FieldVal × List Byte)
  | [], bs => some ([], bs)
  | ty :: tys, bs =>
    match readField ty bs with
    | none => none
    | some (v, bs1) =>
      match readFields tys bs1 with
      | none => none
      | some (vs, rest) => some (v :: vs, rest)

/-- Modelled from the spec: write a kind's fixed fields in declared
order (spec section 4.3). -/
def writeFields : List FieldTy → List FieldVal → List Byte
  | ty :: tys, v :: vs => writeField ty v ++ writeFields tys vs
  | _, _ => []

theorem readFields_rt : ∀ (tys : List FieldTy) (bs : List Byte)
    (vs : List FieldVal) (rest : List Byte),
    readFields tys bs = some (vs, rest) → writeFields tys vs ++ rest = bs := by
  intro tys
  induction tys with
  | nil =>
    intro bs vs rest h
    simp only [readFields, Option.some.injEq, Prod.mk.injEq] at h
    obtain ⟨h1, h2⟩ := h; subst h1; subst h2; rfl
  | cons ty tys ih =>
    intro bs vs rest h
    simp only [readFields] at h
    cases hf : readField ty bs with
    | none => simp only [hf] at h; exact Option.noConfusion h
    | some p =>
      obtain ⟨v, bs1⟩ := p
      simp only [hf] at h
      cases hfs : readFields tys bs1 with
      | none => simp only [hfs] at h; exact Option.noConfusion h
      | some q =>
        obtain ⟨vs1, rest1⟩ := q
        simp only [hfs, Option.some.injEq, Prod.mk.injEq] at h
        obtain ⟨h1, h2⟩ := h; subst h1; subst h2
        have hv := readField_rt ty bs v bs1 hf
        have hvs := ih bs1 vs1 rest1 hfs
        simp only [writeFields, List.append_assoc]
        rw [hvs, hv]

/-- Modelled from the spec: read `n` fixed-shape sub-records of a
counted section (spec section 4.2 step 4). -/
def readElems : Nat → List FieldTy → List Byte →
    Option (List (List FieldVal) × List Byte)
  | 0, _, bs => some ([], bs)
  | n + 1, sch, bs =>
    match readFields sch bs with
    | none => none
    | some (e, bs1) =>
      match readElems n sch bs1 with
      | none => none
      | some (es, rest) => some (e :: es, rest)

/-- Modelled from the spec: write the sub-records of a counted section
in original order (spec section 4.3). -/
def writeElems (sch : List FieldTy) : List (List FieldVal) → List Byte
  | [] => []
  | e :: es => writeFields sch e ++ writeElems sch es

theorem readElems_rt : ∀ (n : Nat) (sch : List FieldTy) (bs : List Byte)
    (es : List (List FieldVal)) (rest : List Byte),
    readElems n sch bs = some (es, rest) →
    es.length = n ∧ writeElems sch es ++ rest = bs := by
  intro n
  induction n with
  | zero =>
    intro sch bs es rest h
    simp only [readElems, Option.some.injEq, Prod.mk.injEq] at h
    obtain ⟨h1, h2⟩ := h; subst h1; subst h2
    exact ⟨rfl, rfl⟩
  | succ m ih =>
    intro sch bs es rest h
    simp only [readElems] at h
    cases hf : readFields sch bs with
    | none => simp only [hf] at h; exact Option.noConfusion h
    | some p =>
      obtain ⟨e, bs1⟩ := p
      simp only [hf] at h
      cases hes : readElems m sch bs1 with
      | none => simp only [hes] at h; exact Option.noConfusion h
      | some q =>
        obtain ⟨es1, rest1⟩ := q
        simp only [hes, Option.some.injEq, Prod.mk.injEq] at h
        obtain ⟨h1, h2⟩ := h; subst h1; subst h2
        obtain ⟨hlen, hrt⟩ := ih sch bs1 es1 rest1 hes
        refine ⟨by simp [hlen], ?_⟩
        have he := readFields_rt sch bs e bs1 hf
        simp only [writeElems, List.append_assoc]
        rw [hrt, he]

/-- Modelled from the spec: one variable-length section — a one-byte
element count followed by exactly that many sub-records (spec section
4.2 step 4). -/
def readSection (sch : List FieldTy) (bs : List Byte) :
    Option (List (List FieldVal) × List Byte) :=
  match bs with
  | [] => none
  | c :: bs1 => readElems c.val sch bs1

/-- Modelled from the spec: write one variable-length section — the
count byte is derived from the actual sequence length, which is
authoritative (spec section 4.3). -/
def writeSection (sch : List FieldTy) (es : List (List FieldVal)) : List Byte :=
  leBytes 1 es.length ++ writeElems sch es

theorem readSection_rt (sch : List FieldTy) (bs : List Byte)
    (es : List (List FieldVal)) (rest : List Byte)
    (h : readSection sch bs = some (es, rest)) :
    writeSection sch es ++ rest = bs := by
  cases bs with
  | nil => simp [readSection] at h
  | cons c bs1 =>
    simp only [readSection] at h
    obtain ⟨hlen, hrt⟩ := readElems_rt c.val sch bs1 es rest h
    simp only [writeSection, hlen, leBytes_one, List.append_assoc,
      List.singleton_append, List.cons_append, List.nil_append]
    rw [hrt]

/-- Modelled from the spec: read all of a kind's counted sections in
declared order (spec section 4.2 step 4). -/
def readSections : List (List FieldTy) → List Byte →
    Option (List (List (List FieldVal)) × List Byte)
  | [], bs => some ([], bs)
  | sch :: schs, bs =>
    match readSection sch bs with
    | none => none
    | some (es, bs1) =>
      match readSections schs bs1 with
      | none => none
      | some (ss, rest) => some (es :: ss, rest)

/-- Modelled from the spec: write all of a kind's counted sections in
declared order (spec section 4.3). -/
def writeSections : List (List FieldTy) → List (List (List FieldVal)) → List Byte
  | sch :: schs, es :: ss => writeSection sch es ++ writeSections schs ss
  | _, _ => []

theorem readSections_rt : ∀ (schs : List (List FieldTy)) (bs : List Byte)
    (ss : List (List (List FieldVal))) (rest : List Byte),
    readSections schs bs = some (ss, rest) →
    writeSections schs ss ++ rest = bs := by
  intro schs
  induction schs with
  | nil =>
    intro bs ss rest h
    simp only [readSections, Option.some.injEq, Prod.mk.injEq] at h
    obtain ⟨h1, h2⟩ := h; subst h1; subst h2; rfl
  | cons sch schs ih =>
    intro bs ss rest h
    simp only [readSections] at h
    cases hs : readSection sch bs with
    | none => simp only [hs] at h; exact Option.noConfusion h
    | some p =>
      obtain ⟨es, bs1⟩ := p
      simp only [hs] at h
      cases hss : readSections schs bs1 with
      | none => simp only [hss] at h; exact Option.noConfusion h
      | some q =>
        obtain ⟨ss1, rest1⟩ := q
        simp only [hss, Option.some.injEq, Prod.mk.injEq] at h
        obtain ⟨h1, h2⟩ := h; subst h1; subst h2
        have he := readSection_rt sch bs es bs1 hs
        have hrt := ih bs1 ss1 rest1 hss
        simp only [writeSections, List.append_assoc]
        rw [hrt, he]


/-- Modelled from the spec: a kind's wire layout — the shapes of its
fixed fields in declared order, then the element schema of each counted
section in declared order (spec sections 4.2–4.3 and 6). -/
structure Layout where
  fixed : List FieldTy
  sections : List (List FieldTy)

/-- Element schema of an `ObjectRef`: ObjectId plus a signed 2-D offset
(2+2+2 bytes, spec section 6). -/
def objRefE : List FieldTy := [.oid, .i16, .i16]

/-- Element schema of a `MacroRef`: macro id and event id (2 bytes). -/
def macroRefE : List FieldTy := [.u8, .u8]

/-- Element schema of a bare ObjectId list entry (2 bytes). -/
def oidE : List FieldTy := [.oid]

/-- Element schema of a `Point<u16>` (4 bytes). -/
def pointE : List FieldTy := [.u16, .u16]

/-- Element schema of an explicit `Colour` entry (4 bytes). -/
def colourE : List FieldTy := [.u8, .u8, .u8, .u8]

/-- Element schema of a raw payload byte. -/
def byteE : List FieldTy := [.u8]

/-- Element schema of a 2-character language code. -/
def langE : List FieldTy := [.u8, .u8]

/-- Element schema of a language-code pair. -/
def langPairE : List FieldTy := [.u8, .u8, .u8, .u8]

/-- Element schema of an `ObjectLabel` entry (id, string variable
reference, font type, graphic representation). -/
def labelE : List FieldTy := [.oid, .oid, .u8, .oid]

/-- Modelled from the spec: the per-kind wire layout table. The fixed
fields and their order are the declared fields of the corresponding
struct in `object_pool/mod.rs` (after the leading ObjectId); each
`Vec`-typed field becomes a counted section (spec section 4.2 step 4;
the exact per-kind widths of `reader.rs`/`writer.rs` are not in the
provided source). -/
def layoutOf : ObjectType → Layout
  | .WorkingSet => ⟨[.u8, .boolean, .oid], [objRefE, macroRefE, langE]⟩
  | .DataMask => ⟨[.u8, .oid], [objRefE, macroRefE]⟩
  | .AlarmMask => ⟨[.u8, .oid, .u8, .u8], [objRefE, macroRefE]⟩
  | .Container => ⟨[.u16, .u16, .boolean], [objRefE, macroRefE]⟩
  | .SoftKeyMask => ⟨[.u8], [oidE, macroRefE]⟩
  | .Key => ⟨[.u8, .u8], [objRefE, macroRefE]⟩
  | .Button => ⟨[.u16, .u16, .u8, .u8, .u8, .u8], [objRefE, macroRefE]⟩
  | .InputBoolean => ⟨[.u8, .u16, .oid, .oid, .boolean, .boolean], [macroRefE]⟩
  | .InputString =>
    ⟨[.u16, .u16, .u8, .oid, .oid, .u8, .oid, .u8, .bstr, .boolean], [macroRefE]⟩
  | .InputNumber =>
    ⟨[.u16, .u16, .u8, .oid, .u8, .oid, .u32, .u32, .u32, .i32, .f32, .u8,
      .boolean, .u8, .u8], [macroRefE]⟩
  | .InputList => ⟨[.u16, .u16, .oid, .u8, .u8], [oidE, macroRefE]⟩
  | .OutputString => ⟨[.u16, .u16, .u8, .oid, .u8, .oid, .u8, .bstr], [macroRefE]⟩
  | .OutputNumber =>
    ⟨[.u16, .u16, .u8, .oid, .u8, .oid, .u32, .i32, .f32, .u8, .boolean, .u8],
      [macroRefE]⟩
  | .OutputLine => ⟨[.oid, .u16, .u16, .u8], [macroRefE]⟩
  | .OutputRectangle => ⟨[.oid, .u16, .u16, .u8, .oid], [macroRefE]⟩
  | .OutputEllipse => ⟨[.oid, .u16, .u16, .u8, .u8, .u8, .oid], [macroRefE]⟩
  | .OutputPolygon => ⟨[.u16, .u16, .oid, .oid, .u8], [pointE, macroRefE]⟩
  | .OutputMeter =>
    ⟨[.u16, .u8, .u8, .u8, .u8, .u8, .u8, .u8, .u16, .u16, .oid, .u16],
      [macroRefE]⟩
  | .OutputLinearBarGraph =>
    ⟨[.u16, .u16, .u8, .u8, .u8, .u8, .u16, .u16, .oid, .u16, .oid, .u16],
      [macroRefE]⟩
  | .OutputArchedBarGraph =>
    ⟨[.u16, .u16, .u8, .u8, .u8, .u8, .u8, .u16, .u16, .u16, .oid, .u16, .oid,
      .u16], [macroRefE]⟩
  | .PictureGraphic => ⟨[.u16, .u16, .u16, .u8, .u8, .u8], [byteE, macroRefE]⟩
  | .NumberVariable => ⟨[.u32], []⟩
  | .StringVariable => ⟨[.bstr], []⟩
  | .FontAttributes => ⟨[.u8, .u8, .u8, .u8], [macroRefE]⟩
  | .LineAttributes => ⟨[.u8, .u8, .u16], [macroRefE]⟩
  | .FillAttributes => ⟨[.u8, .u8, .oid], [macroRefE]⟩
  | .InputAttributes => ⟨[.u8, .bstr], [macroRefE]⟩
  | .ObjectPointer => ⟨[.oid], []⟩
  | .Macro => ⟨[], [byteE]⟩
  | .AuxiliaryFunctionType1 => ⟨[.u8, .u8], [objRefE]⟩
  | .AuxiliaryInputType1 => ⟨[.u8, .u8, .u8], [objRefE]⟩
  | .AuxiliaryFunctionType2 => ⟨[.u8, .u8], [objRefE]⟩
  | .AuxiliaryInputType2 => ⟨[.u8, .u8], [objRefE]⟩
  | .AuxiliaryControlDesignatorType2 => ⟨[.u8, .oid], []⟩
  | .WindowMask =>
    ⟨[.u8, .u8, .u8, .u8, .u8, .oid, .oid, .oid], [oidE, objRefE, macroRefE]⟩
  | .KeyGroup => ⟨[.u8, .oid, .oid], [oidE, macroRefE]⟩
  | .GraphicsContext =>
    ⟨[.u16, .u16, .i16, .i16, .u16, .u16, .f32, .i16, .i16, .u8, .u8, .oid,
      .oid, .oid, .u8, .u8, .u8], []⟩
  | .OutputList => ⟨[.u16, .u16, .oid, .u8], [oidE, macroRefE]⟩
  | .ExtendedInputAttributes => ⟨[.u8, .u8], []⟩
  | .ColourMap => ⟨[], [byteE]⟩
  | .ObjectLabelReferenceList => ⟨[], [labelE]⟩
  | .ExternalObjectDefinition => ⟨[.u8, .name], [oidE]⟩
  | .ExternalReferenceName => ⟨[.u8, .name], []⟩
  | .ExternalObjectPointer => ⟨[.oid, .oid, .oid], []⟩
  | .Animation =>
    ⟨[.u16, .u16, .u16, .u8, .boolean, .u8, .u8, .u8, .u8], [objRefE, macroRefE]⟩
  | .ColourPalette => ⟨[.u16], [colourE]⟩
  | .GraphicData => ⟨[.u8], [byteE]⟩
  | .WorkingSetSpecialControls => ⟨[.oid, .oid], [langPairE]⟩
  | .ScalesGraphic => ⟨[.u16, .u16, .u8, .u8, .u16], [macroRefE]⟩

/-- Modelled from the spec: the Reader's decoded form of one object
record — its ObjectId, kind tag, fixed-field values and section
contents (spec section 4.2; the typed per-kind structs of
`object_pool/mod.rs` carry the same data, keyed by `layoutOf`). -/
structure RawObject where
  id : ObjectId
  ty : ObjectType
  fields : List FieldVal
  sections : List (List (List FieldVal))
deriving DecidableEq

/-- Modelled from the spec: decode one object record (spec section 4.2):
a 2-byte little-endian ObjectId, a 1-byte type tag dispatched through
the `ObjectType` registry, the kind's fixed fields in declared order,
then its counted sections. A short buffer fails with `DataEmpty`, an
unrecognized tag with `UnknownObjectType`. -/
def decodeObject (bs : List Byte) : Except ParseError (RawObject × List Byte) :=
  match readNum 2 bs with
  | none => .error .DataEmpty
  | some (idv, bs1) =>
    match bs1 with
    | [] => .error .DataEmpty
    | t :: bs2 =>
      match ObjectType.tryFrom t.val with
      | .error e => .error e
      | .ok ty =>
        match readFields (layoutOf ty).fixed bs2 with
        | none => .error .DataEmpty
        | some (fs, bs3) =>
          match readSections (layoutOf ty).sections bs3 with
          | none => .error .DataEmpty
          | some (ss, rest) => .ok (⟨ObjectId.fromU16 idv, ty, fs, ss⟩, rest)

/-- Modelled from the spec: encode one object record (spec section 4.3),
the exact structural inverse of `decodeObject`: 2-byte little-endian
ObjectId, 1-byte type tag via the registry, fixed fields in declared
order, counted sections with counts derived from the actual lengths. -/
def encodeObject (o : RawObject) : List Byte :=
  leBytes 2 o.id.raw ++ leBytes 1 (ObjectType.toU8 o.ty) ++
    writeFields (layoutOf o.ty).fixed o.fields ++
    writeSections (layoutOf o.ty).sections o.sections

theorem decodeObject_rt (bs : List Byte) (o : RawObject) (rest : List Byte)
    (h : decodeObject bs = .ok (o, rest)) : encodeObject o ++ rest = bs := by
  unfold decodeObject at h
  cases hn : readNum 2 bs with
  | none => simp only [hn] at h; exact Except.noConfusion h
  | some p =>
    obtain ⟨idv, bs1⟩ := p
    simp only [hn] at h
    cases bs1 with
    | nil => exact Except.noConfusion h
    | cons t bs2 =>
      cases ht : ObjectType.tryFrom t.val with
      | error e => simp only [ht] at h; exact Except.noConfusion h
      | ok ty =>
        simp only [ht] at h
        cases hf : readFields (layoutOf ty).fixed bs2 with
        | none => simp only [hf] at h; exact Except.noConfusion h
        | some q =>
          obtain ⟨fs, bs3⟩ := q
          simp only [hf] at h
          cases hs : readSections (layoutOf ty).sections bs3 with
          | none => simp only [hs] at h; exact Except.noConfusion h
          | some r =>
            obtain ⟨ss, rest1⟩ := r
            simp only [hs, Except.ok.injEq, Prod.mk.injEq] at h
            obtain ⟨h1, h2⟩ := h; subst h1; subst h2
            have hid : leBytes 2 idv ++ (t :: bs2) = bs := (readNum_spec _ _ _ _ hn).1
            have htag : ObjectType.toU8 ty = t.val := tryFrom_ok_toU8 t ty ht
            have hfs := readFields_rt _ bs2 fs bs3 hf
            have hss := readSections_rt _ bs3 ss rest1 hs
            simp only [encodeObject, ObjectId.fromU16, htag, leBytes_one,
              List.append_assoc, List.singleton_append, List.cons_append,
              List.nil_append]
            rw [hss, hfs, hid]

/-- Modelled from the spec: whole-pool decode — read object records
until the buffer is exhausted; any object-level failure fails the whole
operation (spec sections 4.2 and 7). `fuel` bounds the recursion; the
Reader instantiates it with the buffer length, which always suffices
since each record consumes at least one byte. -/
def decodePool : Nat → List Byte → Except ParseError (List RawObject)
  | _, [] => .ok []
  | 0, _ :: _ => .error .DataEmpty
  | fuel + 1, bs =>
    match decodeObject bs with
    | .error e => .error e
    | .ok (o, rest) =>
      match decodePool fuel rest with
      | .error e => .error e
      | .ok os => .ok (o :: os)

/-- Modelled from the spec: whole-pool encode — concatenate the record
encodings in original stream order (spec section 4.3). -/
def encodePool : List RawObject → List Byte
  | [] => []
  | o :: os => encodeObject o ++ encodePool os

/-- Modelled from the spec: the Reader applied to a whole byte buffer. -/
def decodeAll (bs : List Byte) : Except ParseError (List RawObject) :=
  decodePool bs.length bs

theorem decodePool_rt : ∀ (fuel : Nat) (bs : List Byte) (os : List RawObject),
    decodePool fuel bs = .ok os → encodePool os = bs := by
  intro fuel
  induction fuel with
  | zero =>
    intro bs os h
    cases bs with
    | nil =>
      simp only [decodePool, Except.ok.injEq] at h
      subst h; rfl
    | cons b t => exact Except.noConfusion h
  | succ m ih =>
    intro bs os h
    cases bs with
    | nil =>
      simp only [decodePool, Except.ok.injEq] at h
      subst h; rfl
    | cons b t =>
      simp only [decodePool] at h
      cases hd : decodeObject (b :: t) with
      | error e => simp only [hd] at h; exact Except.noConfusion h
      | ok p =>
        obtain ⟨o, rest⟩ := p
        simp only [hd] at h
        cases hp : decodePool m rest with
        | error e => simp only [hp] at h; exact Except.noConfusion h
        | ok os1 =>
          simp only [hp, Except.ok.injEq] at h
          subst h
          have h1 := decodeObject_rt (b :: t) o rest hd
          have h2 := ih rest os1 hp
          simp only [encodePool, h2, h1]


/-- The embedding of the `IndustryGroup` enum from
`network_management/name/industry_group.rs` (discriminants 0–7 in
declaration order). -/
inductive IndustryGroup
  | Global
  | OnHighwayEquipment
  | AgriculturalAndForestryEquipment
  | ConstructionEquipment
  | MarineEquipment
  | IndustrialProcessControl
  | ReservedForSAE1
  | ReservedForSAE2
deriving DecidableEq, Fintype

/-- The embedding of `impl From<IndustryGroup> for u8` from
`industry_group.rs` (`value as u8`: the declaration discriminant). -/
def IndustryGroup.toU8 : IndustryGroup → Nat
  | .Global => 0
  | .OnHighwayEquipment => 1
  | .AgriculturalAndForestryEquipment => 2
  | .ConstructionEquipment => 3
  | .MarineEquipment => 4
  | .IndustrialProcessControl => 5
  | .ReservedForSAE1 => 6
  | .ReservedForSAE2 => 7

/-- The embedding of `impl From<u8> for IndustryGroup` from
`industry_group.rs`. The `unreachable!` panic taken on every value
above 7 is embedded as `Option.none`. -/
def IndustryGroup.fromU8 : Nat → Option IndustryGroup
  | 0 => some .Global
  | 1 => some .OnHighwayEquipment
  | 2 => some .AgriculturalAndForestryEquipment
  | 3 => some .ConstructionEquipment
  | 4 => some .MarineEquipment
  | 5 => some .IndustrialProcessControl
  | 6 => some .ReservedForSAE1
  | 7 => some .ReservedForSAE2
  | _ => none

set_option maxHeartbeats 2000000 in
/-- The embedding of the `DeviceClass` enum from
`network_management/name/device_class.rs`. -/
inductive DeviceClass
  | NotAvailable
  | NonSpecificSystem (ig : IndustryGroup)
  | Tractor (ig : IndustryGroup)
  | Trailer
  | Tillage
  | SecondaryTillage
  | PlantersOrSeeders
  | Fertilizers
  | Sprayers
  | Harvesters
  | RootHarvesters
  | Forage
  | Irrigation
  | TransportOrTrailer
  | FarmYardOperations
  | PoweredAuxiliaryDevices
  | SpecialCrops
  | EarthWork
  | Skidder
  | SensorSystems
  | TimberHarvesters
  | Forwarders
  | TimberLoaders
  | TimberProcessingMachines
  | Mulchers
  | UtilityVehicles
  | SlurryOrManureApplicators
  | FeedersOrMixers
  | Weeders
  | SkidSteerLoader
  | ArticulatedDumpTruck
  | Backhoe
  | Crawler
  | Excavator
  | Forklift
  | FourWheelDriveLoader
  | Grader
  | MillingMachine
  | RecyclerAndSoilStabilizer
  | BindingAgentSpreader
  | Paver
  | Feeder
  | ScreeningPlant
  | Stacker
  | Roller
  | Crusher
  | SystemTools
  | SafetySystems
  | Gateway
  | PowerManagementAndLightingSystems
  | Steeringsystems
  | NavigationSystems
  | CommunicationsSystems
  | InstrumentationOrGeneralSystems
  | EnvironmentalSystems
  | DeckCargoAndFishingEquipmentSystems
  | IndustrialProcessControlStationary

/-- Helper: whether a `DeviceClass` is the `NotAvailable` variant. -/
def DeviceClass.isNA : DeviceClass → Bool
  | .NotAvailable => true
  | _ => false

theorem DeviceClass.isNA_iff (dc : DeviceClass) :
    dc.isNA = true ↔ dc = DeviceClass.NotAvailable := by
  cases dc <;> simp [DeviceClass.isNA]

instance (dc : DeviceClass) : Decidable (dc = DeviceClass.NotAvailable) :=
  decidable_of_iff (dc.isNA = true) (DeviceClass.isNA_iff dc)

/-- The embedding of `impl From<DeviceClass> for u8` from
`device_class.rs`. -/
def DeviceClass.toU8 : DeviceClass → Nat
  | .NotAvailable => 127
  | .NonSpecificSystem _ => 0
  | .Tractor _ => 1
  | .Trailer => 2
  | .Tillage => 2
  | .SecondaryTillage => 3
  | .PlantersOrSeeders => 4
  | .Fertilizers => 5
  | .Sprayers => 6
  | .Harvesters => 7
  | .RootHarvesters => 8
  | .Forage => 9
  | .Irrigation => 10
  | .TransportOrTrailer => 11
  | .FarmYardOperations => 12
  | .PoweredAuxiliaryDevices => 13
  | .SpecialCrops => 14
  | .EarthWork => 15
  | .Skidder => 16
  | .SensorSystems => 17
  | .TimberHarvesters => 19
  | .Forwarders => 20
  | .TimberLoaders => 21
  | .TimberProcessingMachines => 22
  | .Mulchers => 23
  | .UtilityVehicles => 24
  | .SlurryOrManureApplicators => 25
  | .FeedersOrMixers => 26
  | .Weeders => 27
  | .SkidSteerLoader => 1
  | .ArticulatedDumpTruck => 2
  | .Backhoe => 3
  | .Crawler => 4
  | .Excavator => 5
  | .Forklift => 6
  | .FourWheelDriveLoader => 7
  | .Grader => 8
  | .MillingMachine => 9
  | .RecyclerAndSoilStabilizer => 10
  | .BindingAgentSpreader => 11
  | .Paver => 12
  | .Feeder => 13
  | .ScreeningPlant => 14
  | .Stacker => 15
  | .Roller => 16
  | .Crusher => 17
  | .SystemTools => 10
  | .SafetySystems => 20
  | .Gateway => 25
  | .PowerManagementAndLightingSystems => 30
  | .Steeringsystems => 40
  | .NavigationSystems => 60
  | .CommunicationsSystems => 70
  | .InstrumentationOrGeneralSystems => 80
  | .EnvironmentalSystems => 90
  | .DeckCargoAndFishingEquipmentSystems => 100
  | .IndustrialProcessControlStationary => 0

/-- The embedding of `impl From<(u8, IndustryGroup)> for DeviceClass`
from `device_class.rs`, with the source's arm order (first match wins);
the catch-all arm yields `NotAvailable`. -/
def DeviceClass.fromPair : Nat → IndustryGroup → DeviceClass
  | 0, .IndustrialProcessControl => .IndustrialProcessControlStationary
  | 0, ig => .NonSpecificSystem ig
  | 1, .OnHighwayEquipment => .Tractor .OnHighwayEquipment
  | 2, .OnHighwayEquipment => .Trailer
  | 1, .AgriculturalAndForestryEquipment => .Tractor .AgriculturalAndForestryEquipment
  | 2, .AgriculturalAndForestryEquipment => .Tillage
  | 3, .AgriculturalAndForestryEquipment => .SecondaryTillage
  | 4, .AgriculturalAndForestryEquipment => .PlantersOrSeeders
  | 5, .AgriculturalAndForestryEquipment => .Fertilizers
  | 6, .AgriculturalAndForestryEquipment => .Sprayers
  | 7, .AgriculturalAndForestryEquipment => .Harvesters
  | 8, .AgriculturalAndForestryEquipment => .RootHarvesters
  | 9, .AgriculturalAndForestryEquipment => .Forage
  | 10, .AgriculturalAndForestryEquipment => .Irrigation
  | 11, .AgriculturalAndForestryEquipment => .TransportOrTrailer
  | 12, .AgriculturalAndForestryEquipment => .FarmYardOperations
  | 13, .AgriculturalAndForestryEquipment => .PoweredAuxiliaryDevices
  | 14, .AgriculturalAndForestryEquipment => .SpecialCrops
  | 15, .AgriculturalAndForestryEquipment => .EarthWork
  | 16, .AgriculturalAndForestryEquipment => .Skidder
  | 17, .AgriculturalAndForestryEquipment => .SensorSystems
  | 19, .AgriculturalAndForestryEquipment => .TimberHarvesters
  | 20, .AgriculturalAndForestryEquipment => .Forwarders
  | 21, .AgriculturalAndForestryEquipment => .TimberLoaders
  | 22, .AgriculturalAndForestryEquipment => .TimberProcessingMachines
  | 23, .AgriculturalAndForestryEquipment => .Mulchers
  | 24, .AgriculturalAndForestryEquipment => .UtilityVehicles
  | 25, .AgriculturalAndForestryEquipment => .SlurryOrManureApplicators
  | 26, .AgriculturalAndForestryEquipment => .FeedersOrMixers
  | 27, .AgriculturalAndForestryEquipment => .Weeders
  | 1, .ConstructionEquipment => .SkidSteerLoader
  | 2, .ConstructionEquipment => .ArticulatedDumpTruck
  | 3, .ConstructionEquipment => .Backhoe
  | 4, .ConstructionEquipment => .Crawler
  | 5, .ConstructionEquipment => .Excavator
  | 6, .ConstructionEquipment => .Forklift
  | 7, .ConstructionEquipment => .FourWheelDriveLoader
  | 8, .ConstructionEquipment => .Grader
  | 9, .ConstructionEquipment => .MillingMachine
  | 10, .ConstructionEquipment => .RecyclerAndSoilStabilizer
  | 11, .ConstructionEquipment => .BindingAgentSpreader
  | 12, .ConstructionEquipment => .Paver
  | 13, .ConstructionEquipment => .Feeder
  | 14, .ConstructionEquipment => .ScreeningPlant
  | 15, .ConstructionEquipment => .Stacker
  | 16, .ConstructionEquipment => .Roller
  | 17, .ConstructionEquipment => .Crusher
  | 10, .MarineEquipment => .SystemTools
  | 20, .MarineEquipment => .SafetySystems
  | 25, .MarineEquipment => .Gateway
  | 30, .MarineEquipment => .PowerManagementAndLightingSystems
  | 40, .MarineEquipment => .Steeringsystems
  | 60, .MarineEquipment => .NavigationSystems
  | 70, .MarineEquipment => .CommunicationsSystems
  | 80, .MarineEquipment => .InstrumentationOrGeneralSystems
  | 90, .MarineEquipment => .EnvironmentalSystems
  | 100, .MarineEquipment => .DeckCargoAndFishingEquipmentSystems
  | _, _ => .NotAvailable

/-- The embedding of `impl From<DeviceClass> for IndustryGroup` from
`device_class.rs`. -/
def DeviceClass.industryGroup : DeviceClass → IndustryGroup
  | .NotAvailable => .Global
  | .NonSpecificSystem ig => ig
  | .Tractor ig => ig
  | .Trailer => .OnHighwayEquipment
  | .Tillage => .AgriculturalAndForestryEquipment
  | .SecondaryTillage => .AgriculturalAndForestryEquipment
  | .PlantersOrSeeders => .AgriculturalAndForestryEquipment
  | .Fertilizers => .AgriculturalAndForestryEquipment
  | .Sprayers => .AgriculturalAndForestryEquipment
  | .Harvesters => .AgriculturalAndForestryEquipment
  | .RootHarvesters => .AgriculturalAndForestryEquipment
  | .Forage => .AgriculturalAndForestryEquipment
  | .Irrigation => .AgriculturalAndForestryEquipment
  | .TransportOrTrailer => .AgriculturalAndForestryEquipment
  | .FarmYardOperations => .AgriculturalAndForestryEquipment
  | .PoweredAuxiliaryDevices => .AgriculturalAndForestryEquipment
  | .SpecialCrops => .AgriculturalAndForestryEquipment
  | .EarthWork => .AgriculturalAndForestryEquipment
  | .Skidder => .AgriculturalAndForestryEquipment
  | .SensorSystems => .AgriculturalAndForestryEquipment
  | .TimberHarvesters => .AgriculturalAndForestryEquipment
  | .Forwarders => .AgriculturalAndForestryEquipment
  | .TimberLoaders => .AgriculturalAndForestryEquipment
  | .TimberProcessingMachines => .AgriculturalAndForestryEquipment
  | .Mulchers => .AgriculturalAndForestryEquipment
  | .UtilityVehicles => .AgriculturalAndForestryEquipment
  | .SlurryOrManureApplicators => .AgriculturalAndForestryEquipment
  | .FeedersOrMixers => .AgriculturalAndForestryEquipment
  | .Weeders => .AgriculturalAndForestryEquipment
  | .SkidSteerLoader => .ConstructionEquipment
  | .ArticulatedDumpTruck => .ConstructionEquipment
  | .Backhoe => .ConstructionEquipment
  | .Crawler => .ConstructionEquipment
  | .Excavator => .ConstructionEquipment
  | .Forklift => .ConstructionEquipment
  | .FourWheelDriveLoader => .ConstructionEquipment
  | .Grader => .ConstructionEquipment
  | .MillingMachine => .ConstructionEquipment
  | .RecyclerAndSoilStabilizer => .ConstructionEquipment
  | .BindingAgentSpreader => .ConstructionEquipment
  | .Paver => .ConstructionEquipment
  | .Feeder => .ConstructionEquipment
  | .ScreeningPlant => .ConstructionEquipment
  | .Stacker => .ConstructionEquipment
  | .Roller => .ConstructionEquipment
  | .Crusher => .ConstructionEquipment
  | .SystemTools => .MarineEquipment
  | .SafetySystems => .MarineEquipment
  | .Gateway => .MarineEquipment
  | .PowerManagementAndLightingSystems => .MarineEquipment
  | .Steeringsystems => .MarineEquipment
  | .NavigationSystems => .MarineEquipment
  | .CommunicationsSystems => .MarineEquipment
  | .InstrumentationOrGeneralSystems => .MarineEquipment
  | .EnvironmentalSystems => .MarineEquipment
  | .DeckCargoAndFishingEquipmentSystems => .MarineEquipment
  | .IndustrialProcessControlStationary => .IndustrialProcessControl


set_option maxRecDepth 4096 in
theorem tryFrom_ok_of_le48 : ∀ v : Byte, v.val ≤ 48 →
    exceptIsOk (ObjectType.tryFrom v.val) = true := by decide

set_option maxRecDepth 4096 in
theorem tryFrom_err_of_gt48 : ∀ v : Byte, 48 < v.val →
    isUnknownTagErr (ObjectType.tryFrom v.val) = true := by decide

/-- C1: round-trip — for every byte buffer that the Reader accepts,
re-encoding the decoded Object sequence with the Writer reproduces the
original buffer bit-for-bit. The buffer quantification covers records
of every one of the 49 object kinds, which `decodeObject` dispatches
through `layoutOf`. -/
theorem C1_roundtrip :
    ∀ (bs : List Byte) (os : List RawObject),
      decodeAll bs = .ok os → encodePool os = bs := by
  intro bs os h
  exact decodePool_rt bs.length bs os h

/-- Witness for C1: a concrete 7-byte NumberVariable record (id 0x0010,
tag 21, value 42) is accepted by the Reader and re-encodes to the same
bytes. -/
theorem C1_roundtrip_witness :
    encodePool [RawObject.mk ⟨16⟩ .NumberVariable [.num 42] []] =
      [(16 : Byte), 0, 21, 42, 0, 0, 0] :=
  C1_roundtrip [(16 : Byte), 0, 21, 42, 0, 0, 0]
    [RawObject.mk ⟨16⟩ .NumberVariable [.num 42] []] (by rfl)

/-- C2: for every u8 value v, `ObjectType::try_from(v)` succeeds exactly
when 0 ≤ v ≤ 48 — with one distinct ObjectType per value — and fails
with `ParseError::UnknownObjectType` for every v in 49..=255. -/
theorem C2_tag_totality :
    ∀ v : Byte,
      (v.val ≤ 48 → ∃ t : ObjectType, ObjectType.tryFrom v.val = .ok t) ∧
      (48 < v.val → ObjectType.tryFrom v.val = .error .UnknownObjectType) ∧
      (∀ w : Byte, ∀ t : ObjectType, ObjectType.tryFrom v.val = .ok t →
        ObjectType.tryFrom w.val = .ok t → v = w) := by
  intro v
  refine ⟨?_, ?_, ?_⟩
  · intro hv
    exact (exceptIsOk_iff _).mp (tryFrom_ok_of_le48 v hv)
  · intro hv
    exact (isUnknownTagErr_iff _).mp (tryFrom_err_of_gt48 v hv)
  · intro w t hv hw
    have h1 := tryFrom_ok_toU8 v t hv
    have h2 := tryFrom_ok_toU8 w t hw
    exact Fin.ext (h1 ▸ h2)

/-- Witness for C2 at the concrete tag bytes 10 (accepted) and 200
(rejected). -/
theorem C2_tag_totality_witness :
    (∃ t : ObjectType, ObjectType.tryFrom (10 : Byte).val = .ok t) ∧
    ObjectType.tryFrom (200 : Byte).val = .error .UnknownObjectType :=
  ⟨(C2_tag_totality 10).1 (by decide), (C2_tag_totality 200).2.1 (by decide)⟩

/-- C3: the ObjectType registry is a bijection between the 49 variants
and tags 0–48: `try_from` inverts `u8::from` on every variant (and
`u8::from` is total by construction), and `u8::from` inverts `try_from`
on every tag 0–48. -/
theorem C3_registry_bijection :
    (∀ t : ObjectType, ObjectType.tryFrom (ObjectType.toU8 t) = .ok t) ∧
    (∀ v : Byte, v.val ≤ 48 → ∀ t : ObjectType,
      ObjectType.tryFrom v.val = .ok t → ObjectType.toU8 t = v.val) := by
  constructor
  · intro t; cases t <;> rfl
  · intro v _ t ht
    exact tryFrom_ok_toU8 v t ht

/-- Witness for C3 at tag 28 (variant `Macro`). -/
theorem C3_registry_bijection_witness :
    ObjectType.toU8 ObjectType.Macro = (28 : Byte).val :=
  C3_registry_bijection.2 28 (by decide) ObjectType.Macro (by rfl)

/-- C4 counterexample: the claim says decoding a byte slice of length 0
or 1 as an ObjectId "fails with DataEmpty", but `impl From<&[u8]> for
ObjectId` is total and cannot fail: at the concrete 1-byte slice [0x42]
(and at the empty slice) it succeeds, returning `ObjectId::NULL`. -/
theorem C4_counterexample :
    ObjectId.fromSlice [(0x42 : Byte)] = ObjectId.NULL ∧
    ObjectId.fromSlice [] = ObjectId.NULL :=
  ⟨rfl, rfl⟩

/-- C4 (amended): for every byte slice of length 0 or 1, the
`From<&[u8]>` conversion yields the NULL sentinel — it never fails, and
it never yields an ObjectId derived from the partial bytes. -/
theorem C4_short_slice_null :
    ∀ bs : List Byte, bs.length < 2 → ObjectId.fromSlice bs = ObjectId.NULL := by
  intro bs h
  cases bs with
  | nil => rfl
  | cons b0 t =>
    cases t with
    | nil => rfl
    | cons b1 t2 => simp at h; omega

/-- Witness for the amended C4 at the concrete slice [0x07]. -/
theorem C4_short_slice_null_witness :
    ObjectId.fromSlice [(0x07 : Byte)] = ObjectId.NULL :=
  C4_short_slice_null [(0x07 : Byte)] (by decide)

/-- C5: `ObjectId::from(0xFFFFu16)` equals `ObjectId::NULL`,
`ObjectId::default()` equals NULL, the NULL sentinel is the raw value
0xFFFF, and ObjectId equality is equality of the raw u16 value. -/
theorem C5_null_sentinel :
    ObjectId.fromU16 0xFFFF = ObjectId.NULL ∧
    ObjectId.default = ObjectId.NULL ∧
    ObjectId.NULL.raw = 0xFFFF ∧
    ∀ a b : ObjectId, a = b ↔ a.raw = b.raw := by
  refine ⟨rfl, rfl, rfl, ?_⟩
  intro a b
  constructor
  · intro h; rw [h]
  · intro h; cases a; cases b; simp_all

/-- C6: for every Object value, `u8::from(o.object_type())` equals the
wire tag assigned to its variant by the declaration order of the kind
list (WorkingSet=0 through ScalesGraphic=48), for all 49 variants. -/
theorem C6_kind_tag_agrees :
    ∀ o : Object, ObjectType.toU8 (Object.objectType o) = Object.wireTag o := by
  intro o; cases o <;> rfl

/-- C7: for every u32 value, `Colour::from(u32)` sets r to byte 0 (least
significant), g to byte 1, b to byte 2 and a to byte 3 of the value's
little-endian representation: each channel is one byte and the channels
reassemble little-endian, as (R,G,B,A), to the original value. -/
theorem C7_colour_from_u32 :
    ∀ v : Nat, v < 4294967296 →
      (Colour.fromU32 v).r + 256 * (Colour.fromU32 v).g +
        65536 * (Colour.fromU32 v).b + 16777216 * (Colour.fromU32 v).a = v ∧
      (Colour.fromU32 v).r < 256 ∧ (Colour.fromU32 v).g < 256 ∧
      (Colour.fromU32 v).b < 256 ∧ (Colour.fromU32 v).a < 256 := by
  intro v hv
  simp only [Colour.fromU32]
  omega

/-- Witness for C7 at the concrete value 0x8090A0B3 (bytes B3, A0, 90,
80 little-endian). -/
theorem C7_colour_from_u32_witness :
    (Colour.fromU32 0x8090A0B3).r = 0xB3 ∧
    (Colour.fromU32 0x8090A0B3).g = 0xA0 ∧
    (Colour.fromU32 0x8090A0B3).b = 0x90 ∧
    (Colour.fromU32 0x8090A0B3).a = 0x80 ∧
    (Colour.fromU32 0x8090A0B3).r + 256 * (Colour.fromU32 0x8090A0B3).g +
      65536 * (Colour.fromU32 0x8090A0B3).b +
      16777216 * (Colour.fromU32 0x8090A0B3).a = 0x8090A0B3 :=
  ⟨rfl, rfl, rfl, rfl, (C7_colour_from_u32 0x8090A0B3 (by norm_num)).1⟩

set_option maxRecDepth 8192 in
/-- C8: the fixed default palette has exactly 256 entries, and every
entry at index 232 through 255 (the last 24 entries, beyond the
documented colour ramp) is opaque black (r=0, g=0, b=0, a=0xFF). -/
theorem C8_palette_tail_black :
    Colour.COLOUR_PALETTE.length = 256 ∧
    ∀ i : Byte, 232 ≤ i.val →
      Colour.COLOUR_PALETTE[i.val]? = some (Colour.mk 0xFF 0 0 0) := by
  constructor
  · rfl
  · decide

/-- Witness for C8 at the concrete index 240. -/
theorem C8_palette_tail_black_witness :
    Colour.COLOUR_PALETTE[(240 : Byte).val]? = some (Colour.mk 0xFF 0 0 0) :=
  C8_palette_tail_black.2 240 (by decide)

set_option maxRecDepth 8192 in
/-- C9: `IndustryGroup::from(u8)` is not total — it panics (the
`unreachable!` arm, embedded as `none`) for every input greater than 7,
while for every input 0–7 it succeeds and `u8::from` gives the input
back. -/
theorem C9_industry_group_not_total :
    ∀ v : Byte,
      (7 < v.val → IndustryGroup.fromU8 v.val = none) ∧
      (v.val ≤ 7 →
        (IndustryGroup.fromU8 v.val).map IndustryGroup.toU8 = some v.val) := by
  decide

/-- Witness for C9 at the concrete inputs 200 (panics) and 2
(round-trips). -/
theorem C9_industry_group_not_total_witness :
    IndustryGroup.fromU8 (200 : Byte).val = none ∧
    (IndustryGroup.fromU8 (2 : Byte).val).map IndustryGroup.toU8 =
      some (2 : Byte).val :=
  ⟨(C9_industry_group_not_total 200).1 (by decide),
   (C9_industry_group_not_total 2).2 (by decide)⟩

set_option maxRecDepth 16384 in
set_option maxHeartbeats 2000000 in
/-- C10: for every u8 value and IndustryGroup whose
`DeviceClass::from((v, ig))` is not `NotAvailable`, the resulting
DeviceClass round-trips: `u8::from` gives back v and
`IndustryGroup::from` gives back ig. -/
theorem C10_device_class_roundtrip :
    ∀ (v : Byte) (ig : IndustryGroup),
      DeviceClass.fromPair v.val ig ≠ DeviceClass.NotAvailable →
      DeviceClass.toU8 (DeviceClass.fromPair v.val ig) = v.val ∧
      DeviceClass.industryGroup (DeviceClass.fromPair v.val ig) = ig := by
  decide

/-- Witness for C10 at the concrete pair (5,
AgriculturalAndForestryEquipment), i.e. `Fertilizers`. -/
theorem C10_device_class_roundtrip_witness :
    DeviceClass.toU8 (DeviceClass.fromPair (5 : Byte).val
      IndustryGroup.AgriculturalAndForestryEquipment) = (5 : Byte).val ∧
    DeviceClass.industryGroup (DeviceClass.fromPair (5 : Byte).val
      IndustryGroup.AgriculturalAndForestryEquipment) =
      IndustryGroup.AgriculturalAndForestryEquipment :=
  C10_device_class_roundtrip 5 IndustryGroup.AgriculturalAndForestryEquipment
    (by decide)

end AgIso
